import Mathlib

/-!
# The gorm query callback (`callback_query.go`)

A shallow embedding of `queryCallback`: the scope is an explicit record, the
calls the callback makes to its collaborators (tracer, query builder, query
executor, cursor, logger) are recorded in order in an event trace, and Go's
`defer` is an explicit stack that is run, last registered first, when the
function returns.

Destination values are addressable, as section 3 of the specification requires
(`results.Set` and `elem.Addr()` need that); panics are outside the model.
-/

namespace Gorm

set_option linter.dupNamespace false

/-! ## Values and types, as far as the callback inspects them -/

/-- The kinds of `reflect.Kind`. -/
inductive Kind
  | Invalid | Bool | Int | Int8 | Int16 | Int32 | Int64
  | Uint | Uint8 | Uint16 | Uint32 | Uint64 | Uintptr
  | Float32 | Float64 | Complex64 | Complex128
  | Array | Chan | Func | Interface | Map | Ptr | Slice | String | Struct
  | UnsafePointer
  deriving DecidableEq, Repr

/-- The kinds other than `Ptr`, `Slice` and `Struct`. -/
inductive OtherKind
  | Invalid | Bool | Int | Int8 | Int16 | Int32 | Int64
  | Uint | Uint8 | Uint16 | Uint32 | Uint64 | Uintptr
  | Float32 | Float64 | Complex64 | Complex128
  | Array | Chan | Func | Interface | Map | String
  | UnsafePointer
  deriving DecidableEq, Repr

/-- The `reflect.Kind` an `OtherKind` stands for. -/
def OtherKind.toKind : OtherKind → Kind
  | .Invalid => .Invalid | .Bool => .Bool | .Int => .Int | .Int8 => .Int8
  | .Int16 => .Int16 | .Int32 => .Int32 | .Int64 => .Int64
  | .Uint => .Uint | .Uint8 => .Uint8 | .Uint16 => .Uint16 | .Uint32 => .Uint32
  | .Uint64 => .Uint64 | .Uintptr => .Uintptr
  | .Float32 => .Float32 | .Float64 => .Float64
  | .Complex64 => .Complex64 | .Complex128 => .Complex128
  | .Array => .Array | .Chan => .Chan | .Func => .Func
  | .Interface => .Interface | .Map => .Map | .String => .String
  | .UnsafePointer => .UnsafePointer

/-- A raw value as the driver returns it for one column. -/
inductive Raw
  | null
  | int (n : Int)
  | str (s : String)
  | bool (b : Bool)
  deriving DecidableEq, Repr

/-- The type of a struct field that holds a column. -/
inductive FieldTy
  | int | string | bool
  deriving DecidableEq, Repr

/-- The zero value of a field type. -/
def FieldTy.zero : FieldTy → Raw
  | .int => Raw.int 0
  | .string => Raw.str ""
  | .bool => Raw.bool false

/-- A `reflect.Type`: a struct type lists its fields by database name. -/
inductive Ty
  | other (k : OtherKind)
  | struct (fields : List (String × FieldTy))
  | ptr (elem : Ty)
  | slice (elem : Ty)
  deriving DecidableEq, Repr

/-- `Type.Kind()`. -/
def Ty.Kind : Ty → Kind
  | .other k => k.toKind
  | .struct _ => Kind.Struct
  | .ptr _ => Kind.Ptr
  | .slice _ => Kind.Slice

/-- `Type.Elem()` of a pointer or slice type (Go panics on the other types the
model has; they are returned as they are). -/
def Ty.Elem : Ty → Ty
  | .ptr t => t
  | .slice t => t
  | t => t

/-- The fields of a struct value: database name and current value. -/
abbrev Record := List (String × Raw)

/-- A value that can be an element of a slice or a single destination. -/
inductive Elem
  | zero (t : Ty)
  | struct (fields : Record)
  | ptr (target : Elem)
  deriving DecidableEq, Repr

/-- `Value.Kind()` of an element. -/
def Elem.Kind : Elem → Kind
  | .zero t => t.Kind
  | .struct _ => Kind.Struct
  | .ptr _ => Kind.Ptr

/-- `reflect.New(t).Elem()`: a fresh variable holding the zero value of `t`. -/
def zeroValue : Ty → Elem
  | .struct fields => Elem.struct (fields.map fun f => (f.1, f.2.zero))
  | t => Elem.zero t

/-- A `reflect.Value` after `indirect`: the content of the destination. -/
inductive Value
  | single (e : Elem)
  | slice (elemTy : Ty) (elems : List Elem)
  deriving DecidableEq, Repr

/-- `results.Kind()`. -/
def Value.Kind : Value → Kind
  | .single e => e.Kind
  | .slice _ _ => Kind.Slice

/-- `results.Type().Elem()` for a value of kind `Slice` (a nil slice may also
be given as the zero value of a slice type). -/
def Value.elemType : Value → Ty
  | .slice t _ => t
  | .single (.zero t) => t.Elem
  | .single _ => Ty.other OtherKind.Invalid

/-- The variable `elem := results` of a single destination (a slice is not
used as an element: its elements are taken fresh). -/
def Value.toElem : Value → Elem
  | .single e => e
  | .slice t _ => Elem.zero (Ty.slice t)

/-- `reflect.Append(results, elem)` on a slice. -/
def Value.append : Value → Elem → Value
  | .slice t elems, e => Value.slice t (elems ++ [e])
  | .single x, _ => Value.single x

/-- An `interface{}` value of the scope's side channel or of the bound
parameters, given by what the callback can observe of it: its rendering by
`fmt.Sprint` (and by the verb `%v`), the result of the type assertion
`val.(context.Context)`, and the content `indirect(reflect.ValueOf(val))`
refers to. -/
structure Any where
  sprint : String
  asContext : Option Nat
  indirect : Value
  deriving DecidableEq, Repr

/-- Error values: the error `queryCallback` creates itself, the sentinel
`ErrRecordNotFound`, and every other error value, told apart by its message. -/
inductive Error
  | unsupportedDestination
  | ErrRecordNotFound
  | other (msg : String)
  deriving DecidableEq, Repr

/-- Modelled from the spec: `err.Error()`. The text of `ErrRecordNotFound` is
declared outside `callback_query.go` (the not-found condition of section 7). -/
def Error.Error : Error → String
  | .unsupportedDestination => "unsupported destination, should be slice or struct"
  | .ErrRecordNotFound => "record not found"
  | .other msg => msg

/-- The cursor `*sql.Rows` a successful `Query` returns: its column names, the
rows `Next` emits before it returns false, and what `Err` reports then. -/
structure Rows where
  columns : List String
  data : List (List Raw)
  err : Option Error
  deriving DecidableEq, Repr

/-! ## The scope -/

/-- Modelled from the spec: the `Scope` record is declared outside
`callback_query.go` (section 3): SQL text, bound parameters, error state,
rows-affected counter, the string-keyed side channel (`values`, and
`instanceValues` for the flags of this instance), the model value (its content
after `IndirectValue`) and the order clauses of `Search`. `errors` keeps every
error recorded, in order; the first one is the one a sticky slot holds. -/
structure Scope where
  SQL : String
  SQLVars : List Any
  Value : Value
  values : List (String × Any)
  instanceValues : List (String × Any)
  errors : List Error
  RowsAffected : Int
  orders : List String
  deriving DecidableEq, Repr

/-- Modelled from the spec: `scope.Get(name)` reads the side channel. -/
def Scope.Get (s : Scope) (name : String) : Option Any :=
  s.values.lookup name

/-- Modelled from the spec: `scope.InstanceGet(name)` reads a flag of this
instance. -/
def Scope.InstanceGet (s : Scope) (name : String) : Option Any :=
  s.instanceValues.lookup name

/-- Modelled from the spec: `scope.Err(err)` records a non-nil error on the
scope and returns its argument. -/
def Scope.Err (s : Scope) (err : Option Error) : Scope × Option Error :=
  match err with
  | some e => ({ s with errors := s.errors ++ [e] }, err)
  | none => (s, err)

/-- Modelled from the spec: `scope.HasError()`. -/
def Scope.HasError (s : Scope) : Bool :=
  !s.errors.isEmpty

/-- Modelled from the spec: `scope.Search.Order(value)` appends an order
clause. -/
def Scope.Order (s : Scope) (value : String) : Scope :=
  { s with orders := s.orders ++ [value] }

/-- The sticky error slot: the first error recorded. -/
def Scope.slot (s : Scope) : Option Error :=
  s.errors.head?

/-- Replace the value of the first entry of a key. -/
def setEntry (k : String) (v : Any) : List (String × Any) → List (String × Any)
  | [] => []
  | (k1, v1) :: rest =>
    if k == k1 then (k1, v) :: rest else (k1, v1) :: setEntry k v rest

/-- The memory `results` refers to: the model value of the scope, or the
value behind `gorm:query_destination`. -/
inductive Dest
  | model
  | override
  deriving DecidableEq, Repr

/-- Lines 48 and 57-59: `results = scope.IndirectValue()`, replaced by
`indirect(reflect.ValueOf(value))` when `gorm:query_destination` is set. -/
def Scope.destination (s : Scope) : Dest :=
  match s.Get "gorm:query_destination" with
  | some _ => Dest.override
  | none => Dest.model

/-- The content of the destination. -/
def Scope.load (s : Scope) : Dest → Gorm.Value
  | .model => s.Value
  | .override =>
    match s.Get "gorm:query_destination" with
    | some value => value.indirect
    | none => s.Value

/-- `results.Set(v)`: write the content of the destination in place. -/
def Scope.store (s : Scope) (d : Dest) (v : Gorm.Value) : Scope :=
  match d with
  | .model => { s with Value := v }
  | .override =>
    match s.Get "gorm:query_destination" with
    | some value =>
      { s with values := setEntry "gorm:query_destination" { value with indirect := v } s.values }
    | none => { s with Value := v }

/-- `scope.db.RowsAffected++` on an `int64`. -/
def incr64 (n : Int) : Int :=
  (n + 1 + 2 ^ 63) % 2 ^ 64 - 2 ^ 63

/-! ## Collaborators and the event trace -/

/-- A trace context: the background context, a context the caller attached
under `_context`, or the context of a span of this invocation. -/
inductive Ctx
  | background
  | user (id : Nat)
  | span (name : String)
  deriving DecidableEq, Repr

/-- The calls `queryCallback` makes to its collaborators. -/
inductive Event
  | startSpan (name : String) (parent : Ctx)
  | finishSpan (name : String)
  | setTag (span : String) (key : String) (value : String)
  | prepareQuerySQL
  | query (sql : String) (vars : List Any)
  | scan (row : List Raw)
  | rowsErr
  | rowsClose
  | scopeTrace
  deriving DecidableEq, Repr

/-- The functions `queryCallback` calls that are not in `callback_query.go`.
`prepareQuerySQL` gives the SQL text, the bound parameters and the errors the
query builder records; `query` is `scope.SQLDB().Query`; `scan` is
`scope.scan` on one row: the element after the assignment and the error it
records, if any. -/
structure Env where
  primaryField : Scope → Option String
  quotedTableName : Scope → String
  quote : String → String
  prepareQuerySQL : Scope → String × List Any × List Error
  query : String → List Any → Except Error Rows
  scan : List Raw → List String → Elem → Elem × Option Error

/-- The names of the four spans. -/
def rootSpan : String := "gorm:internal_queryCallback"

def prepareSpan : String := "gorm:internal_queryCallback:prepareQuery"

def querySpan : String := "gorm:internal_queryCallback:query"

def scanSpan : String := "gorm:internal_queryCallback:scan"

/-- The state of one invocation: the scope, the calls made so far, and the
deferred calls, the last registered first. -/
structure Frame where
  scope : Scope
  trace : List Event
  defers : List Event

/-- What an invocation leaves: the scope and the calls made, in order. -/
structure Outcome where
  scope : Scope
  trace : List Event

/-- Make a call now. -/
def Frame.emit (f : Frame) (e : Event) : Frame :=
  { f with trace := f.trace ++ [e] }

/-- The statement `defer`. -/
def Frame.defer (f : Frame) (e : Event) : Frame :=
  { f with defers := e :: f.defers }

/-- Replace the scope. -/
def Frame.setScope (f : Frame) (s : Scope) : Frame :=
  { f with scope := s }

/-- The statement `return`, and the end of the function: the deferred calls
run, the last registered first. -/
def Frame.ret (f : Frame) : Outcome :=
  ⟨f.scope, f.trace ++ f.defers⟩

/-! ## queryCallback -/

/-- Lines 32-37: the context the root span starts from. -/
def rootCtx (s : Scope) : Ctx :=
  match s.Get "_context" with
  | some val =>
    match val.asContext with
    | some ctx => Ctx.user ctx
    | none => Ctx.background
  | none => Ctx.background

/-- Lines 51-55: order by the primary key when asked to. -/
def orderByPrimaryKey (env : Env) (s : Scope) : Scope :=
  match s.Get "gorm:order_by_primary_key" with
  | some orderBy =>
    match env.primaryField s with
    | some dbName =>
      s.Order (env.quotedTableName s ++ "." ++ env.quote dbName ++ " " ++ orderBy.sprint)
    | none => s
  | none => s

/-- Lines 79: `scope.prepareQuerySQL()`. -/
def Scope.prepareQuerySQL (env : Env) (s : Scope) : Scope :=
  let p := env.prepareQuerySQL s
  { s with SQL := p.1, SQLVars := p.2.1, errors := s.errors ++ p.2.2 }

/-- Lines 85-87: the query hint is put in front of the SQL text. -/
def applyHint (s : Scope) : Scope :=
  match s.Get "gorm:query_hint" with
  | some str => { s with SQL := str.sprint ++ s.SQL }
  | none => s

/-- Lines 105-120: the body of the loop for one row. `elem` is `results`
itself for a single destination, so that the scan writes into the destination,
and a fresh zero value of the element type for a slice. -/
def scanRow (env : Env) (columns : List String) (dest : Dest) (isSlice isPtr : Bool)
    (resultType : Ty) (row : List Raw) (f : Frame) : Frame :=
  let f := f.setScope { f.scope with RowsAffected := incr64 f.scope.RowsAffected }
  let results := f.scope.load dest
  let elem := if isSlice then zeroValue resultType else results.toElem
  let f := f.emit (Event.scan row)
  let r := env.scan row columns elem
  let f := f.setScope (f.scope.Err r.2).1
  if isSlice then
    if isPtr then
      f.setScope (f.scope.store dest (results.append (Elem.ptr r.1)))
    else
      f.setScope (f.scope.store dest (results.append r.1))
  else
    f.setScope (f.scope.store dest (Value.single r.1))

/-- Lines 104-121: `for rows.Next()`. -/
def scanLoop (env : Env) (columns : List String) (dest : Dest) (isSlice isPtr : Bool)
    (resultType : Ty) : List (List Raw) → Frame → Frame
  | [], f => f
  | row :: rest, f =>
    scanLoop env columns dest isSlice isPtr resultType rest
      (scanRow env columns dest isSlice isPtr resultType row f)

/-- Lines 124-130: the classification of the end of the iteration. -/
def classify (isSlice : Bool) (rowsErr : Option Error) (f : Frame) : Frame :=
  let f := f.emit Event.rowsErr
  match rowsErr with
  | some err =>
    let f := f.emit (Event.setTag scanSpan "rows.err" err.Error)
    f.setScope (f.scope.Err (some err)).1
  | none =>
    if f.scope.RowsAffected == 0 && !isSlice then
      let f := f.emit (Event.setTag scanSpan "rows.err" Error.ErrRecordNotFound.Error)
      f.setScope (f.scope.Err (some Error.ErrRecordNotFound)).1
    else
      f

/-- Lines 75-134: preparation, execution and scanning. -/
def execute (env : Env) (dest : Dest) (isSlice isPtr : Bool) (resultType : Ty)
    (f : Frame) : Outcome :=
  let f := f.emit (Event.startSpan prepareSpan (Ctx.span rootSpan))
  let f := f.emit Event.prepareQuerySQL
  let f := f.setScope (f.scope.prepareQuerySQL env)
  let f := f.emit (Event.finishSpan prepareSpan)
  if !f.scope.HasError then
    let f := f.setScope { f.scope with RowsAffected := 0 }
    let f := f.setScope (applyHint f.scope)
    let f := f.emit (Event.startSpan querySpan (Ctx.span rootSpan))
    let f := f.emit (Event.query f.scope.SQL f.scope.SQLVars)
    let res := env.query f.scope.SQL f.scope.SQLVars
    let f := f.defer (Event.finishSpan querySpan)
    match res with
    | Except.error err => (f.setScope (f.scope.Err (some err)).1).ret
    | Except.ok rows =>
      let f := f.defer Event.rowsClose
      let f := f.emit (Event.startSpan scanSpan (Ctx.span querySpan))
      let columns := rows.columns
      let f := scanLoop env columns dest isSlice isPtr resultType rows.data f
      let f := classify isSlice rows.err f
      let f := f.emit (Event.finishSpan scanSpan)
      f.ret
  else
    f.ret

/-- The function `queryCallback` of `callback_query.go`. -/
def queryCallback (env : Env) (scope : Scope) : Outcome :=
  if (scope.InstanceGet "gorm:skip_query_callback").isSome then
    ⟨scope, []⟩
  else if (scope.InstanceGet "gorm:only_preload").isSome then
    ⟨scope, []⟩
  else
    let f : Frame := ⟨scope, [], []⟩
    let f := f.defer Event.scopeTrace
    let f := f.emit (Event.startSpan rootSpan (rootCtx scope))
    let f := f.defer (Event.finishSpan rootSpan)
    let f := f.setScope (orderByPrimaryKey env f.scope)
    let dest := f.scope.destination
    let results := f.scope.load dest
    if results.Kind = Kind.Slice then
      let resultType := results.elemType
      let f := f.setScope (f.scope.store dest (Value.slice resultType []))
      if resultType.Kind = Kind.Ptr then
        execute env dest true true resultType.Elem f
      else
        execute env dest true false resultType f
    else if results.Kind ≠ Kind.Struct then
      (f.setScope (f.scope.Err (some Error.unsupportedDestination)).1).ret
    else
      execute env dest false false (Ty.other OtherKind.Invalid) f

/-! ## The stages of an invocation, named for the statements -/

/-- Lines 22-29: one of the two skip flags is set. -/
def skipped (s : Scope) : Bool :=
  (s.InstanceGet "gorm:skip_query_callback").isSome ||
    (s.InstanceGet "gorm:only_preload").isSome

/-- The content of the destination `results` refers to. -/
def results (s : Scope) : Value :=
  s.load s.destination

/-- Line 61: `results.Kind()`. -/
def destKind (s : Scope) : Kind :=
  (results s).Kind

/-- Line 63: the element type of a slice destination. -/
def elemTy (s : Scope) : Ty :=
  (results s).elemType

/-- Lines 66-69: `isPtr`. -/
def isPtr (s : Scope) : Bool :=
  decide ((elemTy s).Kind = Kind.Ptr)

/-- Lines 63-69: `resultType`, the struct type behind a pointer element. -/
def resultType (s : Scope) : Ty :=
  if (elemTy s).Kind = Kind.Ptr then (elemTy s).Elem else elemTy s

/-- The scope `prepareQuerySQL` is called on: the order clause is added and a
slice destination is reset (lines 51-69). -/
def beforePrepare (env : Env) (s : Scope) : Scope :=
  if destKind s = Kind.Slice then
    (orderByPrimaryKey env s).store s.destination (Value.slice (elemTy s) [])
  else
    orderByPrimaryKey env s

/-- The scope after `prepareQuerySQL` (line 80). -/
def prepared (env : Env) (s : Scope) : Scope :=
  (beforePrepare env s).prepareQuerySQL env

/-- The scope at the call of `Query` (line 94). -/
def atQuery (env : Env) (s : Scope) : Scope :=
  applyHint { prepared env s with RowsAffected := 0 }

/-- The element lines 109-118 append for one row: the row is scanned into a
fresh zero value, and the address of that value is taken for a slice of
pointers. -/
def scannedElem (env : Env) (s : Scope) (columns : List String) (row : List Raw) : Elem :=
  if isPtr s then
    Elem.ptr (env.scan row columns (zeroValue (resultType s))).1
  else
    (env.scan row columns (zeroValue (resultType s))).1

/-- The errors `scope.scan` records for the rows of a slice destination. -/
def sliceScanErrors (env : Env) (s : Scope) (columns : List String)
    (rows : List (List Raw)) : List Error :=
  rows.filterMap fun row => (env.scan row columns (zeroValue (resultType s))).2

/-- The rows scanned one after the other into the same single destination. -/
def scanAll (env : Env) (columns : List String) : List (List Raw) → Elem → Elem
  | [], e => e
  | row :: rest, e => scanAll env columns rest (env.scan row columns e).1

/-- The errors `scope.scan` records while the rows are scanned into the same
single destination. -/
def scanAllErrors (env : Env) (columns : List String) : List (List Raw) → Elem → List Error
  | [], _ => []
  | row :: rest, e =>
    (env.scan row columns e).2.toList ++ scanAllErrors env columns rest (env.scan row columns e).1

/-- The errors `scope.scan` records for the rows of a cursor. -/
def scanErrors (env : Env) (s : Scope) (rows : Rows) : List Error :=
  if destKind s = Kind.Slice then
    sliceScanErrors env s rows.columns rows.data
  else
    scanAllErrors env rows.columns rows.data (results s).toElem

/-- The errors the collaborators report in one invocation on a supported
destination: those of the query builder, then, when the executor is reached,
the error of `Query`, or those of the field mapper and of the cursor. -/
def reportedErrors (env : Env) (s : Scope) : List Error :=
  (env.prepareQuerySQL (beforePrepare env s)).2.2 ++
    if (prepared env s).HasError then []
    else
      match env.query (atQuery env s).SQL (atQuery env s).SQLVars with
      | Except.error err => [err]
      | Except.ok rows => scanErrors env s rows ++ rows.err.toList

/-- The calls up to and including `Query` (lines 39-94). -/
def openingEvents (env : Env) (s : Scope) : List Event :=
  [Event.startSpan rootSpan (rootCtx s),
    Event.startSpan prepareSpan (Ctx.span rootSpan),
    Event.prepareQuerySQL,
    Event.finishSpan prepareSpan,
    Event.startSpan querySpan (Ctx.span rootSpan),
    Event.query (atQuery env s).SQL (atQuery env s).SQLVars]

/-- The counter after `n` increments. -/
def incrN : Nat → Int → Int
  | 0, c => c
  | n + 1, c => incrN n (incr64 c)

/-- The names of the spans started, in order. -/
def startedSpans (t : List Event) : List String :=
  t.filterMap fun e =>
    match e with
    | Event.startSpan name _ => some name
    | _ => none

/-- The names of the spans finished, in order. -/
def finishedSpans (t : List Event) : List String :=
  t.filterMap fun e =>
    match e with
    | Event.finishSpan name => some name
    | _ => none

/-- The SQL statements issued, in order. -/
def queries (t : List Event) : List (String × List Any) :=
  t.filterMap fun e =>
    match e with
    | Event.query sql vars => some (sql, vars)
    | _ => none

/-! ## A concrete environment -/

/-- Assign a raw value to the field of a given database name, if there is one. -/
def assignColumn (column : String) (v : Raw) : Record → Record
  | [] => []
  | (name, old) :: rest =>
    if name == column then (name, v) :: rest else (name, old) :: assignColumn column v rest

/-- Assign the columns of a row to the fields of their names. -/
def mapRow : List String → List Raw → Record → Record
  | c :: cs, v :: vs, r => mapRow cs vs (assignColumn c v r)
  | _, _, r => r

/-- Modelled from the spec: the field mapper `scope.scan` is not in
`callback_query.go`; section 6 has it assign the columns into the fields of
the target struct by name, ignore unknown columns and leave the fields without
a column as they are. -/
def scanByName (row : List Raw) (columns : List String) : Elem → Elem × Option Error
  | Elem.struct r => (Elem.struct (mapRow columns row r), none)
  | e => (e, none)

/-- An environment whose query builder gives a fixed statement and whose
executor gives a fixed result. -/
def fixedEnv (prepErrors : List Error) (result : Except Error Rows) : Env where
  primaryField := fun _ => some "id"
  quotedTableName := fun _ => "users"
  quote := fun name => name
  prepareQuerySQL := fun _ => ("SELECT * FROM users", [], prepErrors)
  query := fun _ _ => result
  scan := scanByName

/-- The struct type `{ID int, Name string}`. -/
def userTy : Ty :=
  Ty.struct [("id", FieldTy.int), ("name", FieldTy.string)]

/-- A user value. -/
def user (id : Int) (name : String) : Elem :=
  Elem.struct [("id", Raw.int id), ("name", Raw.str name)]

/-- A scope with a given model value and nothing else set. -/
def scopeOf (v : Value) : Scope where
  SQL := ""
  SQLVars := []
  Value := v
  values := []
  instanceValues := []
  errors := []
  RowsAffected := 0
  orders := []

/-- A cursor over the two rows `(1, "a")` and `(2, "b")`. -/
def twoRows : Rows where
  columns := ["id", "name"]
  data := [[Raw.int 1, Raw.str "a"], [Raw.int 2, Raw.str "b"]]
  err := none

/-- A cursor that emits no row and reports no error. -/
def noRows : Rows where
  columns := ["id", "name"]
  data := []
  err := none

/-- A cursor that stops with an error after its first row. -/
def brokenRows : Rows where
  columns := ["id", "name"]
  data := [[Raw.int 1, Raw.str "a"]]
  err := some (Error.other "connection reset")

/-- A string held in an `interface{}`. -/
def anyString (str : String) : Any where
  sprint := str
  asContext := none
  indirect := Value.single (Elem.zero (Ty.other OtherKind.String))

/-- A scope whose instance carries the flag `gorm:skip_query_callback`. -/
def skipScope : Scope :=
  { scopeOf (Value.slice userTy [user 9 "old"]) with
    SQL := "SELECT 1"
    instanceValues := [("gorm:skip_query_callback", anyString "true")] }

/-- A scope with the query hint `/*+ hint */ `. -/
def hintScope : Scope :=
  { scopeOf (Value.slice userTy []) with
    values := [("gorm:query_hint", anyString "/*+ hint */ ")] }

/-- A scope whose destination is a slice of `int`. -/
def intSliceScope : Scope :=
  scopeOf (Value.slice (Ty.other OtherKind.Int) [])

/-- A scope whose destination is a map. -/
def mapScope : Scope :=
  scopeOf (Value.single (Elem.zero (Ty.other OtherKind.Map)))

/-! ## Basic facts -/

theorem queryCallback_scenario :
    (queryCallback (fixedEnv [] (Except.ok twoRows))
        (scopeOf (Value.slice userTy [user 9 "old"]))).scope.Value
      = Value.slice userTy [user 1 "a", user 2 "b"] := by
  decide

theorem lookup_setEntry (k k1 : String) (v : Any) (l : List (String × Any)) :
    (setEntry k v l).lookup k1 = if k1 = k then (l.lookup k).map (fun _ => v) else l.lookup k1 := by
  induction l with
  | nil => simp [setEntry]
  | cons hd tl ih =>
    obtain ⟨k2, v2⟩ := hd
    by_cases h1 : k = k2
    · subst h1
      by_cases h2 : k1 = k
      · subst h2
        simp [setEntry, List.lookup]
      · have h3 : (k1 == k) = false := by simpa using h2
        simp [setEntry, List.lookup, h2, h3]
    · have h3 : (k == k2) = false := by simpa using h1
      by_cases h2 : k1 = k
      · subst h2
        simp [setEntry, List.lookup, h3, ih]
      · by_cases h4 : k1 = k2
        · subst h4
          simp [setEntry, List.lookup, h3, h2]
        · have h5 : (k1 == k2) = false := by simpa using h4
          simp [setEntry, List.lookup, h3, h2, h5, ih]

theorem load_store (s : Scope) (d : Dest) (v : Value) : (s.store d v).load d = v := by
  cases d with
  | model => rfl
  | override =>
    simp only [Scope.store, Scope.load, Scope.Get]
    cases h : List.lookup "gorm:query_destination" s.values with
    | none => simp only [h]
    | some value => simp only [lookup_setEntry, h, if_true, Option.map]

theorem store_errors (s : Scope) (d : Dest) (v : Value) : (s.store d v).errors = s.errors := by
  cases d with
  | model => rfl
  | override => simp only [Scope.store]; split <;> rfl

theorem store_RowsAffected (s : Scope) (d : Dest) (v : Value) :
    (s.store d v).RowsAffected = s.RowsAffected := by
  cases d with
  | model => rfl
  | override => simp only [Scope.store]; split <;> rfl

theorem store_SQL (s : Scope) (d : Dest) (v : Value) : (s.store d v).SQL = s.SQL := by
  cases d with
  | model => rfl
  | override => simp only [Scope.store]; split <;> rfl

theorem store_SQLVars (s : Scope) (d : Dest) (v : Value) :
    (s.store d v).SQLVars = s.SQLVars := by
  cases d with
  | model => rfl
  | override => simp only [Scope.store]; split <;> rfl

theorem store_Get (s : Scope) (d : Dest) (v : Value) (k : String)
    (hk : k ≠ "gorm:query_destination") : (s.store d v).Get k = s.Get k := by
  cases d with
  | model => rfl
  | override =>
    simp only [Scope.store]
    split
    · simp only [Scope.Get, lookup_setEntry, hk, if_false]
    · rfl

theorem orderByPrimaryKey_values (env : Env) (s : Scope) :
    (orderByPrimaryKey env s).values = s.values := by
  unfold orderByPrimaryKey
  split
  · split <;> rfl
  · rfl

theorem orderByPrimaryKey_Value (env : Env) (s : Scope) :
    (orderByPrimaryKey env s).Value = s.Value := by
  unfold orderByPrimaryKey
  split
  · split <;> rfl
  · rfl

theorem orderByPrimaryKey_errors (env : Env) (s : Scope) :
    (orderByPrimaryKey env s).errors = s.errors := by
  unfold orderByPrimaryKey
  split
  · split <;> rfl
  · rfl

theorem load_congr (s1 s2 : Scope) (d : Dest) (hv : s1.values = s2.values)
    (hV : s1.Value = s2.Value) : s1.load d = s2.load d := by
  cases d with
  | model => exact hV
  | override => simp only [Scope.load, Scope.Get, hv, hV]

theorem destination_congr (s1 s2 : Scope) (hv : s1.values = s2.values) :
    s1.destination = s2.destination := by
  simp only [Scope.destination, Scope.Get, hv]

theorem Get_congr (s1 s2 : Scope) (k : String) (hv : s1.values = s2.values) :
    s1.Get k = s2.Get k := by
  simp only [Scope.Get, hv]

theorem scanRow_trace (env : Env) (columns : List String) (dest : Dest) (isSlice isPtr : Bool)
    (resultType : Ty) (row : List Raw) (f : Frame) :
    (scanRow env columns dest isSlice isPtr resultType row f).trace = f.trace ++ [Event.scan row] := by
  unfold scanRow
  cases isSlice <;> cases isPtr <;> rfl

theorem scanRow_defers (env : Env) (columns : List String) (dest : Dest) (isSlice isPtr : Bool)
    (resultType : Ty) (row : List Raw) (f : Frame) :
    (scanRow env columns dest isSlice isPtr resultType row f).defers = f.defers := by
  unfold scanRow
  cases isSlice <;> cases isPtr <;> rfl

theorem Err_errors (s : Scope) (e : Option Error) : (s.Err e).1.errors = s.errors ++ e.toList := by
  cases e <;> simp [Scope.Err]

theorem Err_RowsAffected (s : Scope) (e : Option Error) :
    (s.Err e).1.RowsAffected = s.RowsAffected := by
  cases e <;> rfl

theorem Err_values (s : Scope) (e : Option Error) : (s.Err e).1.values = s.values := by
  cases e <;> rfl

theorem Err_Value (s : Scope) (e : Option Error) : (s.Err e).1.Value = s.Value := by
  cases e <;> rfl

theorem scanRow_RowsAffected (env : Env) (columns : List String) (dest : Dest)
    (isSlice isPtr : Bool) (resultType : Ty) (row : List Raw) (f : Frame) :
    (scanRow env columns dest isSlice isPtr resultType row f).scope.RowsAffected
      = incr64 f.scope.RowsAffected := by
  unfold scanRow
  cases isSlice <;> cases isPtr <;>
    simp [Frame.setScope, Frame.emit, store_RowsAffected, Err_RowsAffected]

theorem scanRow_slice (env : Env) (columns : List String) (dest : Dest) (isPtr : Bool)
    (resultType : Ty) (row : List Raw) (f : Frame) :
    (scanRow env columns dest true isPtr resultType row f).scope.load dest
        = (f.scope.load dest).append
            (if isPtr then Elem.ptr (env.scan row columns (zeroValue resultType)).1
              else (env.scan row columns (zeroValue resultType)).1)
      ∧ (scanRow env columns dest true isPtr resultType row f).scope.errors
        = f.scope.errors ++ (env.scan row columns (zeroValue resultType)).2.toList := by
  unfold scanRow
  have h : Scope.load { f.scope with RowsAffected := incr64 f.scope.RowsAffected } dest
      = f.scope.load dest := load_congr _ _ _ rfl rfl
  cases isPtr <;>
    simp [Frame.setScope, Frame.emit, load_store, store_errors, Err_errors, h]

theorem scanRow_single (env : Env) (columns : List String) (dest : Dest) (isPtr : Bool)
    (resultType : Ty) (row : List Raw) (f : Frame) :
    (scanRow env columns dest false isPtr resultType row f).scope.load dest
        = Value.single (env.scan row columns (f.scope.load dest).toElem).1
      ∧ (scanRow env columns dest false isPtr resultType row f).scope.errors
        = f.scope.errors ++ (env.scan row columns (f.scope.load dest).toElem).2.toList := by
  unfold scanRow
  have h : Scope.load { f.scope with RowsAffected := incr64 f.scope.RowsAffected } dest
      = f.scope.load dest := load_congr _ _ _ rfl rfl
  simp [Frame.setScope, Frame.emit, load_store, store_errors, Err_errors, h]

theorem scanLoop_trace (env : Env) (columns : List String) (dest : Dest) (isSlice isPtr : Bool)
    (resultType : Ty) (rows : List (List Raw)) (f : Frame) :
    (scanLoop env columns dest isSlice isPtr resultType rows f).trace
        = f.trace ++ rows.map Event.scan
      ∧ (scanLoop env columns dest isSlice isPtr resultType rows f).defers = f.defers
      ∧ (scanLoop env columns dest isSlice isPtr resultType rows f).scope.RowsAffected
        = incrN rows.length f.scope.RowsAffected := by
  induction rows generalizing f with
  | nil => simp [scanLoop, incrN]
  | cons row rest ih =>
    obtain ⟨h1, h2, h3⟩ := ih (scanRow env columns dest isSlice isPtr resultType row f)
    simp only [scanLoop, h1, h2, h3, scanRow_trace, scanRow_defers, scanRow_RowsAffected,
      List.map_cons, List.length_cons, incrN, List.append_assoc, List.singleton_append,
      and_self]

theorem scanLoop_slice (env : Env) (columns : List String) (dest : Dest) (isPtr : Bool)
    (resultType : Ty) (rows : List (List Raw)) (f : Frame) (t : Ty) (elems : List Elem)
    (h : f.scope.load dest = Value.slice t elems) :
    (scanLoop env columns dest true isPtr resultType rows f).scope.load dest
        = Value.slice t (elems ++ rows.map fun row =>
            if isPtr then Elem.ptr (env.scan row columns (zeroValue resultType)).1
              else (env.scan row columns (zeroValue resultType)).1)
      ∧ (scanLoop env columns dest true isPtr resultType rows f).scope.errors
        = f.scope.errors ++ rows.filterMap fun row =>
            (env.scan row columns (zeroValue resultType)).2 := by
  induction rows generalizing f elems with
  | nil => simp [scanLoop, h]
  | cons row rest ih =>
    obtain ⟨h1, h2⟩ := scanRow_slice env columns dest isPtr resultType row f
    rw [h] at h1
    obtain ⟨h3, h4⟩ := ih (scanRow env columns dest true isPtr resultType row f) _ h1
    simp only [scanLoop, h3, h4, h2]
    constructor
    · simp
    · cases hs : (env.scan row columns (zeroValue resultType)).2 <;>
        simp [List.filterMap_cons, hs]

theorem scanLoop_single (env : Env) (columns : List String) (dest : Dest) (isPtr : Bool)
    (resultType : Ty) (rows : List (List Raw)) (f : Frame) (e : Elem)
    (h : f.scope.load dest = Value.single e) :
    (scanLoop env columns dest false isPtr resultType rows f).scope.load dest
        = Value.single (scanAll env columns rows e)
      ∧ (scanLoop env columns dest false isPtr resultType rows f).scope.errors
        = f.scope.errors ++ scanAllErrors env columns rows e := by
  induction rows generalizing f e with
  | nil => simp [scanLoop, h, scanAll, scanAllErrors]
  | cons row rest ih =>
    obtain ⟨h1, h2⟩ := scanRow_single env columns dest isPtr resultType row f
    rw [h] at h1 h2
    obtain ⟨h3, h4⟩ := ih (scanRow env columns dest false isPtr resultType row f) _ h1
    simp only [scanLoop, h3, h4, h2, scanAll, scanAllErrors, Value.toElem, List.append_assoc,
      and_self]

theorem incr64_eq (c : Int) (h0 : 0 ≤ c) (h1 : c + 1 < 2 ^ 63) : incr64 c = c + 1 := by
  unfold incr64
  omega

theorem incrN_eq (n : Nat) (c : Int) (h0 : 0 ≤ c) (h1 : c + n < 2 ^ 63) :
    incrN n c = c + n := by
  induction n generalizing c with
  | zero => simp [incrN]
  | succ n ih =>
    have h2 : incr64 c = c + 1 := incr64_eq c h0 (by push_cast at h1; omega)
    rw [incrN, h2, ih (c + 1) (by omega) (by push_cast at h1 ⊢; omega)]
    push_cast
    ring

theorem classify_trace (isSlice : Bool) (rowsErr : Option Error) (f : Frame) :
    (classify isSlice rowsErr f).defers = f.defers
      ∧ ∃ vs : List String, (classify isSlice rowsErr f).trace
          = f.trace ++ Event.rowsErr :: vs.map (Event.setTag scanSpan "rows.err") := by
  unfold classify
  cases rowsErr with
  | some err =>
    refine ⟨rfl, [err.Error], ?_⟩
    simp [Frame.emit, Frame.setScope]
  | none =>
    by_cases hc : ((f.emit Event.rowsErr).scope.RowsAffected == 0 && !isSlice) = true
    · refine ⟨by simp only [hc]; rfl, [Error.ErrRecordNotFound.Error], ?_⟩
      simp only [hc]
      simp [Frame.emit, Frame.setScope]
    · refine ⟨by simp only [hc]; rfl, [], ?_⟩
      simp only [hc]
      simp [Frame.emit]

theorem classify_load (isSlice : Bool) (rowsErr : Option Error) (f : Frame) (d : Dest) :
    (classify isSlice rowsErr f).scope.load d = f.scope.load d
      ∧ (classify isSlice rowsErr f).scope.RowsAffected = f.scope.RowsAffected := by
  unfold classify
  cases rowsErr with
  | some err => exact ⟨load_congr _ _ _ rfl rfl, rfl⟩
  | none =>
    by_cases hc : ((f.emit Event.rowsErr).scope.RowsAffected == 0 && !isSlice) = true
    · simp only [hc]
      exact ⟨load_congr _ _ _ rfl rfl, rfl⟩
    · simp only [hc]
      exact ⟨rfl, rfl⟩

theorem classify_errors (isSlice : Bool) (rowsErr : Option Error) (f : Frame) :
    (classify isSlice rowsErr f).scope.errors
      = f.scope.errors ++
        (match rowsErr with
          | some err => [err]
          | none => if f.scope.RowsAffected = 0 ∧ isSlice = false then [Error.ErrRecordNotFound]
              else []) := by
  unfold classify
  cases rowsErr with
  | some err => simp [Frame.emit, Frame.setScope, Scope.Err]
  | none =>
    by_cases h1 : f.scope.RowsAffected = 0 <;> cases isSlice <;>
      simp [Frame.emit, Frame.setScope, Scope.Err, h1]

theorem execute_prepareFailed (env : Env) (dest : Dest) (isSlice isPtr : Bool) (resultType : Ty)
    (f : Frame) (h : (f.scope.prepareQuerySQL env).HasError = true) :
    execute env dest isSlice isPtr resultType f
      = ⟨f.scope.prepareQuerySQL env,
          f.trace ++ [Event.startSpan prepareSpan (Ctx.span rootSpan), Event.prepareQuerySQL,
            Event.finishSpan prepareSpan] ++ f.defers⟩ := by
  simp [execute, Frame.emit, Frame.setScope, Frame.ret, Frame.defer, h]

theorem execute_queryFailed (env : Env) (dest : Dest) (isSlice isPtr : Bool) (resultType : Ty)
    (f : Frame) (err : Error) (h : (f.scope.prepareQuerySQL env).HasError = false)
    (hq : env.query (applyHint { f.scope.prepareQuerySQL env with RowsAffected := 0 }).SQL
        (applyHint { f.scope.prepareQuerySQL env with RowsAffected := 0 }).SQLVars
      = Except.error err) :
    execute env dest isSlice isPtr resultType f
      = ⟨((applyHint { f.scope.prepareQuerySQL env with RowsAffected := 0 }).Err (some err)).1,
          f.trace ++ [Event.startSpan prepareSpan (Ctx.span rootSpan), Event.prepareQuerySQL,
            Event.finishSpan prepareSpan, Event.startSpan querySpan (Ctx.span rootSpan),
            Event.query (applyHint { f.scope.prepareQuerySQL env with RowsAffected := 0 }).SQL
              (applyHint { f.scope.prepareQuerySQL env with RowsAffected := 0 }).SQLVars]
            ++ Event.finishSpan querySpan :: f.defers⟩ := by
  simp only [execute, Frame.emit, Frame.setScope, Frame.ret, Frame.defer, h, hq]
  simp

theorem execute_ok (env : Env) (dest : Dest) (isSlice isPtr : Bool) (resultType : Ty)
    (f : Frame) (rows : Rows) (h : (f.scope.prepareQuerySQL env).HasError = false)
    (hq : env.query (applyHint { f.scope.prepareQuerySQL env with RowsAffected := 0 }).SQL
        (applyHint { f.scope.prepareQuerySQL env with RowsAffected := 0 }).SQLVars
      = Except.ok rows) :
    execute env dest isSlice isPtr resultType f
      = ((classify isSlice rows.err
          (scanLoop env rows.columns dest isSlice isPtr resultType rows.data
            ⟨applyHint { f.scope.prepareQuerySQL env with RowsAffected := 0 },
              f.trace ++ [Event.startSpan prepareSpan (Ctx.span rootSpan), Event.prepareQuerySQL,
                Event.finishSpan prepareSpan, Event.startSpan querySpan (Ctx.span rootSpan),
                Event.query (applyHint { f.scope.prepareQuerySQL env with RowsAffected := 0 }).SQL
                  (applyHint { f.scope.prepareQuerySQL env with RowsAffected := 0 }).SQLVars,
                Event.startSpan scanSpan (Ctx.span querySpan)],
              Event.rowsClose :: Event.finishSpan querySpan :: f.defers⟩)).emit
          (Event.finishSpan scanSpan)).ret := by
  simp only [execute, Frame.emit, Frame.setScope, Frame.ret, Frame.defer, h, hq]
  simp

theorem skipped_false (s : Scope) (h : skipped s = false) :
    (s.InstanceGet "gorm:skip_query_callback").isSome = false
      ∧ (s.InstanceGet "gorm:only_preload").isSome = false := by
  simpa [skipped] using h

theorem queryCallback_skipped (env : Env) (s : Scope) (h : skipped s = true) :
    queryCallback env s = ⟨s, []⟩ := by
  unfold queryCallback
  by_cases h1 : (s.InstanceGet "gorm:skip_query_callback").isSome = true
  · simp only [h1, if_true]
  · have h2 : (s.InstanceGet "gorm:only_preload").isSome = true := by
      simp only [skipped, Bool.or_eq_true] at h
      rcases h with h | h
      · exact absurd h h1
      · exact h
    simp [h1, h2]

theorem orderByPrimaryKey_results (env : Env) (s : Scope) :
    (orderByPrimaryKey env s).destination = s.destination
      ∧ ∀ d, (orderByPrimaryKey env s).load d = s.load d :=
  ⟨destination_congr _ _ (orderByPrimaryKey_values env s),
    fun d => load_congr _ _ d (orderByPrimaryKey_values env s) (orderByPrimaryKey_Value env s)⟩

theorem queryCallback_unsupported (env : Env) (s : Scope) (h : skipped s = false)
    (h1 : destKind s ≠ Kind.Slice) (h2 : destKind s ≠ Kind.Struct) :
    queryCallback env s
      = ⟨((orderByPrimaryKey env s).Err (some Error.unsupportedDestination)).1,
          [Event.startSpan rootSpan (rootCtx s), Event.finishSpan rootSpan, Event.scopeTrace]⟩ := by
  obtain ⟨k1, k2⟩ := skipped_false s h
  obtain ⟨hd, hl⟩ := orderByPrimaryKey_results env s
  simp only [destKind, results] at h1 h2
  simp [queryCallback, k1, k2, Frame.defer, Frame.emit, Frame.setScope, Frame.ret, hd, hl, h1, h2]

theorem queryCallback_slice (env : Env) (s : Scope) (h : skipped s = false)
    (h1 : destKind s = Kind.Slice) :
    queryCallback env s
      = execute env s.destination true (isPtr s) (resultType s)
          ⟨beforePrepare env s, [Event.startSpan rootSpan (rootCtx s)],
            [Event.finishSpan rootSpan, Event.scopeTrace]⟩ := by
  obtain ⟨k1, k2⟩ := skipped_false s h
  obtain ⟨hd, hl⟩ := orderByPrimaryKey_results env s
  have h3 := h1
  simp only [destKind, results] at h3
  by_cases hp : (elemTy s).Kind = Kind.Ptr
  · have hp2 := hp
    simp only [elemTy, results] at hp2
    simp [queryCallback, k1, k2, Frame.defer, Frame.emit, Frame.setScope, hd, hl, h3, hp2,
      isPtr, resultType, hp, beforePrepare, h1, elemTy, results]
  · have hp2 := hp
    simp only [elemTy, results] at hp2
    simp [queryCallback, k1, k2, Frame.defer, Frame.emit, Frame.setScope, hd, hl, h3, hp2,
      isPtr, resultType, hp, beforePrepare, h1, elemTy, results]

theorem queryCallback_struct (env : Env) (s : Scope) (h : skipped s = false)
    (h1 : destKind s = Kind.Struct) :
    queryCallback env s
      = execute env s.destination false false (Ty.other OtherKind.Invalid)
          ⟨beforePrepare env s, [Event.startSpan rootSpan (rootCtx s)],
            [Event.finishSpan rootSpan, Event.scopeTrace]⟩ := by
  obtain ⟨k1, k2⟩ := skipped_false s h
  obtain ⟨hd, hl⟩ := orderByPrimaryKey_results env s
  have h3 := h1
  simp only [destKind, results] at h3
  simp [queryCallback, k1, k2, Frame.defer, Frame.emit, Frame.setScope, hd, hl, h3,
    beforePrepare, h1]

theorem applyHint_fields (s : Scope) :
    (applyHint s).values = s.values ∧ (applyHint s).Value = s.Value
      ∧ (applyHint s).errors = s.errors ∧ (applyHint s).RowsAffected = s.RowsAffected
      ∧ (applyHint s).SQLVars = s.SQLVars := by
  unfold applyHint
  split <;> exact ⟨rfl, rfl, rfl, rfl, rfl⟩

theorem atQuery_fields (env : Env) (s : Scope) :
    (atQuery env s).values = (beforePrepare env s).values
      ∧ (atQuery env s).Value = (beforePrepare env s).Value
      ∧ (atQuery env s).errors = (prepared env s).errors
      ∧ (atQuery env s).RowsAffected = 0
      ∧ (atQuery env s).SQLVars = (prepared env s).SQLVars := by
  obtain ⟨h1, h2, h3, h4, h5⟩ := applyHint_fields { prepared env s with RowsAffected := 0 }
  exact ⟨h1, h2, h3, h4, h5⟩

theorem atQuery_load (env : Env) (s : Scope) (d : Dest) :
    (atQuery env s).load d = (beforePrepare env s).load d :=
  load_congr _ _ d (atQuery_fields env s).1 (atQuery_fields env s).2.1

theorem beforePrepare_load_slice (env : Env) (s : Scope) (h : destKind s = Kind.Slice) :
    (beforePrepare env s).load s.destination = Value.slice (elemTy s) [] := by
  simp only [beforePrepare, h, if_true, load_store]

theorem beforePrepare_load_other (env : Env) (s : Scope) (h : destKind s ≠ Kind.Slice)
    (d : Dest) : (beforePrepare env s).load d = s.load d := by
  simp only [beforePrepare, h, if_false]
  exact (orderByPrimaryKey_results env s).2 d

theorem beforePrepare_errors (env : Env) (s : Scope) : (beforePrepare env s).errors = s.errors := by
  unfold beforePrepare
  split
  · rw [store_errors, orderByPrimaryKey_errors]
  · exact orderByPrimaryKey_errors env s

theorem prepared_errors (env : Env) (s : Scope) :
    (prepared env s).errors = s.errors ++ (env.prepareQuerySQL (beforePrepare env s)).2.2 := by
  simp only [prepared, Scope.prepareQuerySQL, beforePrepare_errors]

theorem hasError_false (s : Scope) (h : s.HasError = false) : s.errors = [] := by
  simpa [Scope.HasError] using h

theorem run_queryFailed (env : Env) (s : Scope) (err : Error) (hskip : skipped s = false)
    (hkind : destKind s = Kind.Slice ∨ destKind s = Kind.Struct)
    (hprep : (prepared env s).HasError = false)
    (hquery : env.query (atQuery env s).SQL (atQuery env s).SQLVars = Except.error err) :
    queryCallback env s
      = ⟨((atQuery env s).Err (some err)).1,
          openingEvents env s
            ++ [Event.finishSpan querySpan, Event.finishSpan rootSpan, Event.scopeTrace]⟩ := by
  rcases hkind with hk | hk
  · rw [queryCallback_slice env s hskip hk,
      execute_queryFailed env _ _ _ _ ⟨beforePrepare env s, _, _⟩ err hprep hquery]
    rfl
  · rw [queryCallback_struct env s hskip hk,
      execute_queryFailed env _ _ _ _ ⟨beforePrepare env s, _, _⟩ err hprep hquery]
    rfl

theorem run_prepareFailed (env : Env) (s : Scope) (hskip : skipped s = false)
    (hkind : destKind s = Kind.Slice ∨ destKind s = Kind.Struct)
    (hprep : (prepared env s).HasError = true) :
    queryCallback env s
      = ⟨prepared env s,
          [Event.startSpan rootSpan (rootCtx s), Event.startSpan prepareSpan (Ctx.span rootSpan),
            Event.prepareQuerySQL, Event.finishSpan prepareSpan, Event.finishSpan rootSpan,
            Event.scopeTrace]⟩ := by
  rcases hkind with hk | hk
  · rw [queryCallback_slice env s hskip hk,
      execute_prepareFailed env _ _ _ _ ⟨beforePrepare env s, _, _⟩ hprep]
    rfl
  · rw [queryCallback_struct env s hskip hk,
      execute_prepareFailed env _ _ _ _ ⟨beforePrepare env s, _, _⟩ hprep]
    rfl

theorem run_slice (env : Env) (s : Scope) (rows : Rows) (hskip : skipped s = false)
    (hkind : destKind s = Kind.Slice) (hprep : (prepared env s).HasError = false)
    (hquery : env.query (atQuery env s).SQL (atQuery env s).SQLVars = Except.ok rows) :
    queryCallback env s
      = ((classify true rows.err
          (scanLoop env rows.columns s.destination true (isPtr s) (resultType s) rows.data
            ⟨atQuery env s,
              openingEvents env s ++ [Event.startSpan scanSpan (Ctx.span querySpan)],
              [Event.rowsClose, Event.finishSpan querySpan, Event.finishSpan rootSpan,
                Event.scopeTrace]⟩)).emit (Event.finishSpan scanSpan)).ret := by
  rw [queryCallback_slice env s hskip hkind,
    execute_ok env _ _ _ _ ⟨beforePrepare env s, _, _⟩ rows hprep hquery]
  rfl

theorem run_struct (env : Env) (s : Scope) (rows : Rows) (hskip : skipped s = false)
    (hkind : destKind s = Kind.Struct) (hprep : (prepared env s).HasError = false)
    (hquery : env.query (atQuery env s).SQL (atQuery env s).SQLVars = Except.ok rows) :
    queryCallback env s
      = ((classify false rows.err
          (scanLoop env rows.columns s.destination false false (Ty.other OtherKind.Invalid)
            rows.data
            ⟨atQuery env s,
              openingEvents env s ++ [Event.startSpan scanSpan (Ctx.span querySpan)],
              [Event.rowsClose, Event.finishSpan querySpan, Event.finishSpan rootSpan,
                Event.scopeTrace]⟩)).emit (Event.finishSpan scanSpan)).ret := by
  rw [queryCallback_struct env s hskip hkind,
    execute_ok env _ _ _ _ ⟨beforePrepare env s, _, _⟩ rows hprep hquery]
  rfl

theorem run_trace (env : Env) (s : Scope) (rows : Rows) (hskip : skipped s = false)
    (hkind : destKind s = Kind.Slice ∨ destKind s = Kind.Struct)
    (hprep : (prepared env s).HasError = false)
    (hquery : env.query (atQuery env s).SQL (atQuery env s).SQLVars = Except.ok rows) :
    ∃ vs : List String, (queryCallback env s).trace
      = openingEvents env s ++ [Event.startSpan scanSpan (Ctx.span querySpan)]
        ++ rows.data.map Event.scan
        ++ Event.rowsErr :: vs.map (Event.setTag scanSpan "rows.err")
        ++ [Event.finishSpan scanSpan, Event.rowsClose, Event.finishSpan querySpan,
          Event.finishSpan rootSpan, Event.scopeTrace] := by
  rcases hkind with hk | hk
  · rw [run_slice env s rows hskip hk hprep hquery]
    obtain ⟨hd, vs, ht⟩ := classify_trace true rows.err
      (scanLoop env rows.columns s.destination true (isPtr s) (resultType s) rows.data
        ⟨atQuery env s,
          openingEvents env s ++ [Event.startSpan scanSpan (Ctx.span querySpan)],
          [Event.rowsClose, Event.finishSpan querySpan, Event.finishSpan rootSpan,
            Event.scopeTrace]⟩)
    obtain ⟨h1, h2, _⟩ := scanLoop_trace env rows.columns s.destination true (isPtr s)
      (resultType s) rows.data
        ⟨atQuery env s,
          openingEvents env s ++ [Event.startSpan scanSpan (Ctx.span querySpan)],
          [Event.rowsClose, Event.finishSpan querySpan, Event.finishSpan rootSpan,
            Event.scopeTrace]⟩
    refine ⟨vs, ?_⟩
    simp only [Frame.ret, Frame.emit, ht, hd, h1, h2]
    simp
  · rw [run_struct env s rows hskip hk hprep hquery]
    obtain ⟨hd, vs, ht⟩ := classify_trace false rows.err
      (scanLoop env rows.columns s.destination false false (Ty.other OtherKind.Invalid)
        rows.data
        ⟨atQuery env s,
          openingEvents env s ++ [Event.startSpan scanSpan (Ctx.span querySpan)],
          [Event.rowsClose, Event.finishSpan querySpan, Event.finishSpan rootSpan,
            Event.scopeTrace]⟩)
    obtain ⟨h1, h2, _⟩ := scanLoop_trace env rows.columns s.destination false false
      (Ty.other OtherKind.Invalid) rows.data
        ⟨atQuery env s,
          openingEvents env s ++ [Event.startSpan scanSpan (Ctx.span querySpan)],
          [Event.rowsClose, Event.finishSpan querySpan, Event.finishSpan rootSpan,
            Event.scopeTrace]⟩
    refine ⟨vs, ?_⟩
    simp only [Frame.ret, Frame.emit, ht, hd, h1, h2]
    simp

theorem run_slice_scope (env : Env) (s : Scope) (rows : Rows) (hskip : skipped s = false)
    (hkind : destKind s = Kind.Slice) (hprep : (prepared env s).HasError = false)
    (hquery : env.query (atQuery env s).SQL (atQuery env s).SQLVars = Except.ok rows) :
    (queryCallback env s).scope.load s.destination
        = Value.slice (elemTy s) (rows.data.map (scannedElem env s rows.columns))
      ∧ (queryCallback env s).scope.errors
        = sliceScanErrors env s rows.columns rows.data ++ rows.err.toList
      ∧ (queryCallback env s).scope.RowsAffected = incrN rows.data.length 0 := by
  rw [run_slice env s rows hskip hkind hprep hquery]
  simp only [Frame.ret, Frame.emit]
  have h0 : (atQuery env s).load s.destination = Value.slice (elemTy s) [] := by
    rw [atQuery_load, beforePrepare_load_slice env s hkind]
  obtain ⟨h1, h2⟩ := scanLoop_slice env rows.columns s.destination (isPtr s) (resultType s)
    rows.data
    ⟨atQuery env s, openingEvents env s ++ [Event.startSpan scanSpan (Ctx.span querySpan)],
      [Event.rowsClose, Event.finishSpan querySpan, Event.finishSpan rootSpan,
        Event.scopeTrace]⟩ (elemTy s) [] h0
  obtain ⟨_, _, h3⟩ := scanLoop_trace env rows.columns s.destination true (isPtr s)
    (resultType s) rows.data
    ⟨atQuery env s, openingEvents env s ++ [Event.startSpan scanSpan (Ctx.span querySpan)],
      [Event.rowsClose, Event.finishSpan querySpan, Event.finishSpan rootSpan,
        Event.scopeTrace]⟩
  have he : (atQuery env s).errors = [] := by
    rw [(atQuery_fields env s).2.2.1]
    exact hasError_false _ hprep
  refine ⟨?_, ?_, ?_⟩
  · rw [(classify_load _ _ _ _).1, h1]
    rfl
  · rw [classify_errors, h2, he]
    cases rows.err <;> simp [sliceScanErrors]
  · rw [(classify_load _ _ _ s.destination).2, h3, (atQuery_fields env s).2.2.2.1]

theorem struct_results (s : Scope) (h : destKind s = Kind.Struct) :
    results s = Value.single (results s).toElem := by
  unfold destKind at h
  cases hr : results s with
  | single e => rfl
  | slice t elems => rw [hr] at h; cases h

theorem run_struct_scope (env : Env) (s : Scope) (rows : Rows) (hskip : skipped s = false)
    (hkind : destKind s = Kind.Struct) (hprep : (prepared env s).HasError = false)
    (hquery : env.query (atQuery env s).SQL (atQuery env s).SQLVars = Except.ok rows) :
    (queryCallback env s).scope.load s.destination
        = Value.single (scanAll env rows.columns rows.data (results s).toElem)
      ∧ (queryCallback env s).scope.errors
        = scanAllErrors env rows.columns rows.data (results s).toElem ++
          (match rows.err with
            | some err => [err]
            | none => if incrN rows.data.length 0 = 0 then [Error.ErrRecordNotFound] else [])
      ∧ (queryCallback env s).scope.RowsAffected = incrN rows.data.length 0 := by
  rw [run_struct env s rows hskip hkind hprep hquery]
  simp only [Frame.ret, Frame.emit]
  have hne : destKind s ≠ Kind.Slice := by rw [hkind]; decide
  have h0 : (atQuery env s).load s.destination = Value.single (results s).toElem := by
    rw [atQuery_load, beforePrepare_load_other env s hne]
    exact struct_results s hkind
  obtain ⟨h1, h2⟩ := scanLoop_single env rows.columns s.destination false
    (Ty.other OtherKind.Invalid) rows.data
    ⟨atQuery env s, openingEvents env s ++ [Event.startSpan scanSpan (Ctx.span querySpan)],
      [Event.rowsClose, Event.finishSpan querySpan, Event.finishSpan rootSpan,
        Event.scopeTrace]⟩ _ h0
  obtain ⟨_, _, h3⟩ := scanLoop_trace env rows.columns s.destination false false
    (Ty.other OtherKind.Invalid) rows.data
    ⟨atQuery env s, openingEvents env s ++ [Event.startSpan scanSpan (Ctx.span querySpan)],
      [Event.rowsClose, Event.finishSpan querySpan, Event.finishSpan rootSpan,
        Event.scopeTrace]⟩
  have he : (atQuery env s).errors = [] := by
    rw [(atQuery_fields env s).2.2.1]
    exact hasError_false _ hprep
  have hr : (atQuery env s).RowsAffected = 0 := (atQuery_fields env s).2.2.2.1
  refine ⟨?_, ?_, ?_⟩
  · rw [(classify_load _ _ _ _).1, h1]
  · rw [classify_errors, h2, he, h3]
    simp only [hr, List.nil_append, and_true]
  · rw [(classify_load _ _ _ s.destination).2, h3, hr]

/-- C1: for a slice destination with any previous contents, after a successful
query whose cursor emits the rows `rows.data`, the destination holds exactly
one element per row, the element scanned from that row into a fresh zero
value (its address for a slice of pointers), in the order of the cursor, and
nothing else; the rows-affected counter is the number of rows (counted on an
`int64`, so for fewer than `2 ^ 63` rows, which every Go slice has). -/
theorem C1_slice_holds_scanned_rows_in_order (env : Env) (s : Scope) (rows : Rows)
    (hskip : skipped s = false) (hkind : destKind s = Kind.Slice)
    (hprep : (prepared env s).HasError = false)
    (hquery : env.query (atQuery env s).SQL (atQuery env s).SQLVars = Except.ok rows) :
    (queryCallback env s).scope.load s.destination
        = Value.slice (elemTy s) (rows.data.map (scannedElem env s rows.columns))
      ∧ (rows.data.map (scannedElem env s rows.columns)).length = rows.data.length
      ∧ (queryCallback env s).scope.RowsAffected = incrN rows.data.length 0
      ∧ (rows.data.length < 2 ^ 63 →
          (queryCallback env s).scope.RowsAffected = rows.data.length) := by
  obtain ⟨h1, _, h3⟩ := run_slice_scope env s rows hskip hkind hprep hquery
  refine ⟨h1, List.length_map _ _, h3, fun hlt => ?_⟩
  rw [h3, incrN_eq rows.data.length 0 (le_refl 0) (by simpa using (by exact_mod_cast hlt))]
  simp

theorem C1_witness :
    (queryCallback (fixedEnv [] (Except.ok twoRows))
        (scopeOf (Value.slice userTy [user 9 "old"]))).scope.load Dest.model
        = Value.slice userTy [user 1 "a", user 2 "b"]
      ∧ (queryCallback (fixedEnv [] (Except.ok twoRows))
        (scopeOf (Value.slice userTy [user 9 "old"]))).scope.RowsAffected = 2 :=
  ⟨(C1_slice_holds_scanned_rows_in_order (fixedEnv [] (Except.ok twoRows))
      (scopeOf (Value.slice userTy [user 9 "old"])) twoRows rfl rfl rfl rfl).1,
    (C1_slice_holds_scanned_rows_in_order (fixedEnv [] (Except.ok twoRows))
      (scopeOf (Value.slice userTy [user 9 "old"])) twoRows rfl rfl rfl rfl).2.2.2
      (by decide)⟩

/-- C2: for a single-struct destination, when the query succeeds and the
cursor emits no row and reports no error, `ErrRecordNotFound` is recorded on
the scope (it is the only error there, and the one in the sticky slot) and
the destination is as it was before the call. -/
theorem C2_single_struct_no_rows_not_found (env : Env) (s : Scope) (rows : Rows)
    (hskip : skipped s = false) (hkind : destKind s = Kind.Struct)
    (hprep : (prepared env s).HasError = false)
    (hquery : env.query (atQuery env s).SQL (atQuery env s).SQLVars = Except.ok rows)
    (hrows : rows.data = []) (herr : rows.err = none) :
    (queryCallback env s).scope.errors = [Error.ErrRecordNotFound]
      ∧ (queryCallback env s).scope.slot = some Error.ErrRecordNotFound
      ∧ (queryCallback env s).scope.load s.destination = s.load s.destination := by
  obtain ⟨h1, h2, _⟩ := run_struct_scope env s rows hskip hkind hprep hquery
  rw [hrows, herr] at h2
  rw [hrows] at h1
  have h3 : (queryCallback env s).scope.errors = [Error.ErrRecordNotFound] := by
    rw [h2]
    simp [scanAllErrors, incrN]
  refine ⟨h3, ?_, ?_⟩
  · simp [Scope.slot, h3]
  · rw [h1]
    exact (struct_results s hkind).symm

theorem C2_witness :
    (queryCallback (fixedEnv [] (Except.ok noRows))
        (scopeOf (Value.single (user 7 "kept")))).scope.errors = [Error.ErrRecordNotFound]
      ∧ (queryCallback (fixedEnv [] (Except.ok noRows))
        (scopeOf (Value.single (user 7 "kept")))).scope.load Dest.model
        = Value.single (user 7 "kept") :=
  ⟨(C2_single_struct_no_rows_not_found (fixedEnv [] (Except.ok noRows))
      (scopeOf (Value.single (user 7 "kept"))) noRows rfl rfl rfl rfl rfl rfl).1,
    (C2_single_struct_no_rows_not_found (fixedEnv [] (Except.ok noRows))
      (scopeOf (Value.single (user 7 "kept"))) noRows rfl rfl rfl rfl rfl rfl).2.2⟩

theorem slice_errors (env : Env) (s : Scope)
    (hskip : skipped s = false) (hkind : destKind s = Kind.Slice) :
    (queryCallback env s).scope.errors = s.errors ++ reportedErrors env s := by
  cases hprep : (prepared env s).HasError with
  | true =>
    rw [run_prepareFailed env s hskip (Or.inl hkind) hprep, prepared_errors]
    simp [reportedErrors, hprep]
  | false =>
    have hp := hasError_false _ hprep
    have hp2 := hp
    rw [prepared_errors] at hp2
    cases hquery : env.query (atQuery env s).SQL (atQuery env s).SQLVars with
    | error err =>
      rw [run_queryFailed env s err hskip (Or.inl hkind) hprep hquery, Err_errors,
        (atQuery_fields env s).2.2.1, hp]
      unfold reportedErrors
      rw [← List.append_assoc, hp2]
      simp [hprep, hquery]
    | ok rows =>
      rw [(run_slice_scope env s rows hskip hkind hprep hquery).2.1]
      unfold reportedErrors
      rw [← List.append_assoc, hp2]
      simp [hprep, hquery, scanErrors, hkind]

/-- C3: for a slice destination, the errors on the scope after the call are
those that were there before and those the collaborators reported (query
builder, executor, field mapper, cursor): `queryCallback` adds none of its
own, so it never records `ErrRecordNotFound`; when the query succeeds and the
cursor emits no row and reports no error, the destination is the empty slice
and no error is on the scope. -/
theorem C3_slice_never_not_found (env : Env) (s : Scope)
    (hskip : skipped s = false) (hkind : destKind s = Kind.Slice) :
    (queryCallback env s).scope.errors = s.errors ++ reportedErrors env s
      ∧ (Error.ErrRecordNotFound ∉ s.errors →
          Error.ErrRecordNotFound ∉ reportedErrors env s →
          Error.ErrRecordNotFound ∉ (queryCallback env s).scope.errors)
      ∧ (∀ rows : Rows, (prepared env s).HasError = false →
          env.query (atQuery env s).SQL (atQuery env s).SQLVars = Except.ok rows →
          rows.data = [] → rows.err = none →
          (queryCallback env s).scope.load s.destination = Value.slice (elemTy s) []
            ∧ (queryCallback env s).scope.errors = []) := by
  have main := slice_errors env s hskip hkind
  refine ⟨main, ?_, ?_⟩
  · intro h1 h2
    rw [main]
    simp [h1, h2]
  · intro rows hprep hquery hrows herr
    obtain ⟨h1, h2, _⟩ := run_slice_scope env s rows hskip hkind hprep hquery
    rw [hrows] at h1 h2
    rw [herr] at h2
    exact ⟨by simpa using h1, by simpa [sliceScanErrors] using h2⟩

theorem C3_witness :
    (queryCallback (fixedEnv [] (Except.ok noRows))
        (scopeOf (Value.slice userTy [user 9 "old"]))).scope.load Dest.model
        = Value.slice userTy []
      ∧ (queryCallback (fixedEnv [] (Except.ok noRows))
        (scopeOf (Value.slice userTy [user 9 "old"]))).scope.errors = [] :=
  (C3_slice_never_not_found (fixedEnv [] (Except.ok noRows))
    (scopeOf (Value.slice userTy [user 9 "old"])) rfl rfl).2.2 noRows rfl rfl rfl rfl

/-- C4: when the query succeeds and the cursor stops with the error `e` after
emitting the rows `rows.data`, the errors on the scope are those the field
mapper recorded for these rows, followed by `e`: the cursor error is
recorded and the callback does not add `ErrRecordNotFound`, also when no row
was emitted and the destination is a single struct; a slice destination holds
exactly the rows scanned before the failure, in order. -/
theorem C4_cursor_error_recorded (env : Env) (s : Scope) (rows : Rows) (e : Error)
    (hskip : skipped s = false)
    (hkind : destKind s = Kind.Slice ∨ destKind s = Kind.Struct)
    (hprep : (prepared env s).HasError = false)
    (hquery : env.query (atQuery env s).SQL (atQuery env s).SQLVars = Except.ok rows)
    (herr : rows.err = some e) :
    (queryCallback env s).scope.errors = scanErrors env s rows ++ [e]
      ∧ (rows.data = [] → (queryCallback env s).scope.errors = [e])
      ∧ (e ≠ Error.ErrRecordNotFound → Error.ErrRecordNotFound ∉ scanErrors env s rows →
          Error.ErrRecordNotFound ∉ (queryCallback env s).scope.errors)
      ∧ (destKind s = Kind.Slice →
          (queryCallback env s).scope.load s.destination
            = Value.slice (elemTy s) (rows.data.map (scannedElem env s rows.columns))) := by
  have main : (queryCallback env s).scope.errors = scanErrors env s rows ++ [e] := by
    rcases hkind with hk | hk
    · rw [(run_slice_scope env s rows hskip hk hprep hquery).2.1, herr]
      simp [scanErrors, hk]
    · rw [(run_struct_scope env s rows hskip hk hprep hquery).2.1, herr]
      simp [scanErrors, hk]
  refine ⟨main, ?_, ?_, ?_⟩
  · intro hrows
    rw [main]
    unfold scanErrors sliceScanErrors
    rw [hrows]
    split <;> simp [scanAllErrors]
  · intro h1 h2
    rw [main]
    simp only [List.mem_append, List.mem_singleton, not_or]
    exact ⟨h2, fun h => h1 h.symm⟩
  · intro hk
    exact (run_slice_scope env s rows hskip hk hprep hquery).1

theorem C4_witness :
    (queryCallback (fixedEnv [] (Except.ok brokenRows))
        (scopeOf (Value.slice userTy [user 9 "old"]))).scope.errors
        = [Error.other "connection reset"]
      ∧ (queryCallback (fixedEnv [] (Except.ok brokenRows))
        (scopeOf (Value.slice userTy [user 9 "old"]))).scope.load Dest.model
        = Value.slice userTy [user 1 "a"] :=
  ⟨(C4_cursor_error_recorded (fixedEnv [] (Except.ok brokenRows))
      (scopeOf (Value.slice userTy [user 9 "old"])) brokenRows
      (Error.other "connection reset") rfl (Or.inl rfl) rfl rfl rfl).1,
    (C4_cursor_error_recorded (fixedEnv [] (Except.ok brokenRows))
      (scopeOf (Value.slice userTy [user 9 "old"])) brokenRows
      (Error.other "connection reset") rfl (Or.inl rfl) rfl rfl rfl).2.2.2 rfl⟩

theorem startedSpans_scan (rows : List (List Raw)) : startedSpans (rows.map Event.scan) = [] := by
  induction rows with
  | nil => rfl
  | cons r rest _ => simp [startedSpans]

theorem startedSpans_tags (vs : List String) :
    startedSpans (vs.map (Event.setTag scanSpan "rows.err")) = [] := by
  induction vs with
  | nil => rfl
  | cons r rest _ => simp [startedSpans]

theorem finishedSpans_scan (rows : List (List Raw)) :
    finishedSpans (rows.map Event.scan) = [] := by
  induction rows with
  | nil => rfl
  | cons r rest _ => simp [finishedSpans]

theorem finishedSpans_tags (vs : List String) :
    finishedSpans (vs.map (Event.setTag scanSpan "rows.err")) = [] := by
  induction vs with
  | nil => rfl
  | cons r rest _ => simp [finishedSpans]

theorem queries_scan (rows : List (List Raw)) : queries (rows.map Event.scan) = [] := by
  induction rows with
  | nil => rfl
  | cons r rest _ => simp [queries]

theorem queries_tags (vs : List String) :
    queries (vs.map (Event.setTag scanSpan "rows.err")) = [] := by
  induction vs with
  | nil => rfl
  | cons r rest _ => simp [queries]

theorem startedSpans_append (a b : List Event) :
    startedSpans (a ++ b) = startedSpans a ++ startedSpans b := by
  simp [startedSpans]

theorem finishedSpans_append (a b : List Event) :
    finishedSpans (a ++ b) = finishedSpans a ++ finishedSpans b := by
  simp [finishedSpans]

theorem queries_append (a b : List Event) : queries (a ++ b) = queries a ++ queries b := by
  simp [queries]

theorem mem_queries (t : List Event) (sql : String) (vars : List Any) :
    Event.query sql vars ∈ t ↔ (sql, vars) ∈ queries t := by
  induction t with
  | nil => simp [queries]
  | cons e rest ih =>
    cases e <;> simp_all [queries, List.filterMap_cons]

/-- The five shapes of the trace of an invocation. -/
theorem trace_cases (env : Env) (s : Scope) :
    (skipped s = true ∧ (queryCallback env s).trace = [])
      ∨ (skipped s = false ∧ destKind s ≠ Kind.Slice ∧ destKind s ≠ Kind.Struct
          ∧ (queryCallback env s).trace
            = [Event.startSpan rootSpan (rootCtx s), Event.finishSpan rootSpan,
                Event.scopeTrace])
      ∨ (skipped s = false ∧ (destKind s = Kind.Slice ∨ destKind s = Kind.Struct)
          ∧ (prepared env s).HasError = true
          ∧ (queryCallback env s).trace
            = [Event.startSpan rootSpan (rootCtx s),
                Event.startSpan prepareSpan (Ctx.span rootSpan), Event.prepareQuerySQL,
                Event.finishSpan prepareSpan, Event.finishSpan rootSpan, Event.scopeTrace])
      ∨ (skipped s = false ∧ (destKind s = Kind.Slice ∨ destKind s = Kind.Struct)
          ∧ (prepared env s).HasError = false
          ∧ ∃ err, env.query (atQuery env s).SQL (atQuery env s).SQLVars = Except.error err
            ∧ (queryCallback env s).trace
              = openingEvents env s
                ++ [Event.finishSpan querySpan, Event.finishSpan rootSpan, Event.scopeTrace])
      ∨ (skipped s = false ∧ (destKind s = Kind.Slice ∨ destKind s = Kind.Struct)
          ∧ (prepared env s).HasError = false
          ∧ ∃ (rows : Rows) (vs : List String), env.query (atQuery env s).SQL (atQuery env s).SQLVars = Except.ok rows
            ∧ (queryCallback env s).trace
              = openingEvents env s ++ [Event.startSpan scanSpan (Ctx.span querySpan)]
                ++ rows.data.map Event.scan
                ++ Event.rowsErr :: vs.map (Event.setTag scanSpan "rows.err")
                ++ [Event.finishSpan scanSpan, Event.rowsClose, Event.finishSpan querySpan,
                  Event.finishSpan rootSpan, Event.scopeTrace]) := by
  cases hskip : skipped s with
  | true =>
    left
    exact ⟨rfl, by rw [queryCallback_skipped env s hskip]⟩
  | false =>
    right
    by_cases hk : destKind s = Kind.Slice ∨ destKind s = Kind.Struct
    · right
      cases hprep : (prepared env s).HasError with
      | true =>
        left
        exact ⟨rfl, hk, rfl, by rw [run_prepareFailed env s hskip hk hprep]⟩
      | false =>
        right
        cases hquery : env.query (atQuery env s).SQL (atQuery env s).SQLVars with
        | error err =>
          left
          exact ⟨rfl, hk, rfl, err, rfl, by rw [run_queryFailed env s err hskip hk hprep hquery]⟩
        | ok rows =>
          right
          obtain ⟨vs, hvs⟩ := run_trace env s rows hskip hk hprep hquery
          exact ⟨rfl, hk, rfl, rows, vs, rfl, hvs⟩
    · left
      have h1 : destKind s ≠ Kind.Slice := fun h => hk (Or.inl h)
      have h2 : destKind s ≠ Kind.Struct := fun h => hk (Or.inr h)
      exact ⟨rfl, h1, h2, by rw [queryCallback_unsupported env s hskip h1 h2]⟩

theorem beforePrepare_Get (env : Env) (s : Scope) (k : String)
    (hk : k ≠ "gorm:query_destination") : (beforePrepare env s).Get k = s.Get k := by
  unfold beforePrepare
  split
  · rw [store_Get _ _ _ _ hk]
    exact Get_congr _ _ k (orderByPrimaryKey_values env s)
  · exact Get_congr _ _ k (orderByPrimaryKey_values env s)

theorem atQuery_SQL (env : Env) (s : Scope) :
    (atQuery env s).SQL
      = (match s.Get "gorm:query_hint" with
          | some str => str.sprint ++ (env.prepareQuerySQL (beforePrepare env s)).1
          | none => (env.prepareQuerySQL (beforePrepare env s)).1) := by
  have h : Scope.Get { prepared env s with RowsAffected := 0 } "gorm:query_hint"
      = s.Get "gorm:query_hint" := by
    rw [← beforePrepare_Get env s "gorm:query_hint" (by decide)]
    exact Get_congr _ _ _ rfl
  unfold atQuery applyHint
  rw [h]
  cases s.Get "gorm:query_hint" <;> rfl

theorem queries_of_run (env : Env) (s : Scope) (hskip : skipped s = false)
    (hkind : destKind s = Kind.Slice ∨ destKind s = Kind.Struct)
    (hprep : (prepared env s).HasError = false) :
    queries (queryCallback env s).trace = [((atQuery env s).SQL, (atQuery env s).SQLVars)] := by
  cases hquery : env.query (atQuery env s).SQL (atQuery env s).SQLVars with
  | error err =>
    rw [run_queryFailed env s err hskip hkind hprep hquery]
    simp [queries, openingEvents]
  | ok rows =>
    obtain ⟨vs, hvs⟩ := run_trace env s rows hskip hkind hprep hquery
    rw [hvs]
    simp [queries, openingEvents]

/-- C5 (as stated, refuted): a slice of `int` is a destination whose elements
are not structs, and `queryCallback` does not reject it: no error is recorded
and one SQL statement is issued. -/
theorem C5_counterexample :
    destKind intSliceScope = Kind.Slice
      ∧ (elemTy intSliceScope).Kind = Kind.Int
      ∧ Error.unsupportedDestination ∉
          (queryCallback (fixedEnv [] (Except.ok noRows)) intSliceScope).scope.errors
      ∧ queries (queryCallback (fixedEnv [] (Except.ok noRows)) intSliceScope).trace
        = [("SELECT * FROM users", [])] := by
  decide

/-- C5 (amended): for every destination whose kind is neither slice nor
struct, `queryCallback` records the error "unsupported destination, should be
slice or struct" and returns at once: the query builder is not called and no
SQL statement is issued. A slice destination passes this check whatever the
kind of its elements: the query builder is called and the callback adds no
error of its own. -/
theorem C5_unsupported_kind_rejected (env : Env) (s : Scope) (hskip : skipped s = false) :
    (destKind s ≠ Kind.Slice → destKind s ≠ Kind.Struct →
        (queryCallback env s).scope.errors = s.errors ++ [Error.unsupportedDestination]
          ∧ Error.unsupportedDestination.Error
            = "unsupported destination, should be slice or struct"
          ∧ (queryCallback env s).trace
            = [Event.startSpan rootSpan (rootCtx s), Event.finishSpan rootSpan,
                Event.scopeTrace]
          ∧ queries (queryCallback env s).trace = [])
      ∧ (destKind s = Kind.Slice →
          Event.prepareQuerySQL ∈ (queryCallback env s).trace
            ∧ (queryCallback env s).scope.errors = s.errors ++ reportedErrors env s) := by
  constructor
  · intro h1 h2
    rw [queryCallback_unsupported env s hskip h1 h2]
    refine ⟨?_, rfl, rfl, rfl⟩
    simp [Scope.Err, orderByPrimaryKey_errors]
  · intro hk
    refine ⟨?_, slice_errors env s hskip hk⟩
    rcases trace_cases env s with h | h | h | h | h
    · rw [hskip] at h
      exact absurd h.1 (by decide)
    · exact absurd hk h.2.1
    · rw [h.2.2.2]
      simp
    · obtain ⟨_, _, _, err, _, ht⟩ := h
      rw [ht]
      simp [openingEvents]
    · obtain ⟨_, _, _, rows, vs, _, ht⟩ := h
      rw [ht]
      simp [openingEvents]

theorem C5_witness :
    (queryCallback (fixedEnv [] (Except.ok noRows)) mapScope).scope.errors
        = [Error.unsupportedDestination]
      ∧ queries (queryCallback (fixedEnv [] (Except.ok noRows)) mapScope).trace = [] :=
  ⟨((C5_unsupported_kind_rejected (fixedEnv [] (Except.ok noRows)) mapScope rfl).1
      (by decide) (by decide)).1,
    ((C5_unsupported_kind_rejected (fixedEnv [] (Except.ok noRows)) mapScope rfl).1
      (by decide) (by decide)).2.2.2⟩

theorem finishedSpans_failed (env : Env) (s : Scope) :
    finishedSpans (openingEvents env s
        ++ [Event.finishSpan querySpan, Event.finishSpan rootSpan, Event.scopeTrace])
      = [prepareSpan, querySpan, rootSpan] := rfl

theorem startedSpans_failed (env : Env) (s : Scope) :
    startedSpans (openingEvents env s
        ++ [Event.finishSpan querySpan, Event.finishSpan rootSpan, Event.scopeTrace])
      = [rootSpan, prepareSpan, querySpan] := rfl

theorem finishedSpans_scanned (env : Env) (s : Scope) (rows : Rows) (vs : List String) :
    finishedSpans (openingEvents env s ++ [Event.startSpan scanSpan (Ctx.span querySpan)]
        ++ rows.data.map Event.scan
        ++ Event.rowsErr :: vs.map (Event.setTag scanSpan "rows.err")
        ++ [Event.finishSpan scanSpan, Event.rowsClose, Event.finishSpan querySpan,
          Event.finishSpan rootSpan, Event.scopeTrace])
      = [prepareSpan, scanSpan, querySpan, rootSpan] := by
  have h : finishedSpans (Event.rowsErr :: vs.map (Event.setTag scanSpan "rows.err")) = [] :=
    finishedSpans_tags vs
  simp only [finishedSpans_append, finishedSpans_scan, h, List.append_nil]
  rfl

theorem startedSpans_scanned (env : Env) (s : Scope) (rows : Rows) (vs : List String) :
    startedSpans (openingEvents env s ++ [Event.startSpan scanSpan (Ctx.span querySpan)]
        ++ rows.data.map Event.scan
        ++ Event.rowsErr :: vs.map (Event.setTag scanSpan "rows.err")
        ++ [Event.finishSpan scanSpan, Event.rowsClose, Event.finishSpan querySpan,
          Event.finishSpan rootSpan, Event.scopeTrace])
      = [rootSpan, prepareSpan, querySpan, scanSpan] := by
  have h : startedSpans (Event.rowsErr :: vs.map (Event.setTag scanSpan "rows.err")) = [] :=
    startedSpans_tags vs
  simp only [startedSpans_append, startedSpans_scan, h, List.append_nil]
  rfl

/-- C6 (as stated, refuted): with a slice destination and a cursor of two
rows the trace is the one below: the scan span is started, both rows are
scanned, the scan span is finished and the cursor closed before the query
span is finished; the finish of the query span does not precede the start of
the scan span. -/
theorem C6_counterexample :
    (queryCallback (fixedEnv [] (Except.ok twoRows)) (scopeOf (Value.slice userTy []))).trace
        = [Event.startSpan rootSpan Ctx.background,
            Event.startSpan prepareSpan (Ctx.span rootSpan),
            Event.prepareQuerySQL,
            Event.finishSpan prepareSpan,
            Event.startSpan querySpan (Ctx.span rootSpan),
            Event.query "SELECT * FROM users" [],
            Event.startSpan scanSpan (Ctx.span querySpan),
            Event.scan [Raw.int 1, Raw.str "a"],
            Event.scan [Raw.int 2, Raw.str "b"],
            Event.rowsErr,
            Event.finishSpan scanSpan,
            Event.rowsClose,
            Event.finishSpan querySpan,
            Event.finishSpan rootSpan,
            Event.scopeTrace]
      ∧ ¬ ((queryCallback (fixedEnv [] (Except.ok twoRows))
              (scopeOf (Value.slice userTy []))).trace.indexOf (Event.finishSpan querySpan)
            < (queryCallback (fixedEnv [] (Except.ok twoRows))
              (scopeOf (Value.slice userTy []))).trace.indexOf
                (Event.startSpan scanSpan (Ctx.span querySpan))) := by
  decide

/-- C6 (amended): the finish of the query span is deferred to the return of
`queryCallback`. In every invocation that calls `Query` the query span is
finished exactly once, whatever the outcome of the call: when `Query` fails,
right after the call; when it succeeds, after the scan span is started, the
rows scanned, the scan span finished and the cursor closed. In both cases it
is finished before the root span. -/
theorem C6_query_span_finish_deferred (env : Env) (s : Scope) (hskip : skipped s = false)
    (hkind : destKind s = Kind.Slice ∨ destKind s = Kind.Struct)
    (hprep : (prepared env s).HasError = false) :
    (finishedSpans (queryCallback env s).trace).count querySpan = 1
      ∧ Event.finishSpan querySpan ∉ openingEvents env s
      ∧ (∀ err, env.query (atQuery env s).SQL (atQuery env s).SQLVars = Except.error err →
          (queryCallback env s).trace
            = openingEvents env s
              ++ [Event.finishSpan querySpan, Event.finishSpan rootSpan, Event.scopeTrace])
      ∧ (∀ rows, env.query (atQuery env s).SQL (atQuery env s).SQLVars = Except.ok rows →
          ∃ mid : List Event, Event.finishSpan querySpan ∉ mid
            ∧ (queryCallback env s).trace
              = openingEvents env s ++ [Event.startSpan scanSpan (Ctx.span querySpan)] ++ mid
                ++ [Event.finishSpan scanSpan, Event.rowsClose, Event.finishSpan querySpan,
                  Event.finishSpan rootSpan, Event.scopeTrace]) := by
  refine ⟨?_, ?_, ?_, ?_⟩
  · cases hquery : env.query (atQuery env s).SQL (atQuery env s).SQLVars with
    | error err =>
      rw [run_queryFailed env s err hskip hkind hprep hquery, finishedSpans_failed]
      decide
    | ok rows =>
      obtain ⟨vs, hvs⟩ := run_trace env s rows hskip hkind hprep hquery
      rw [hvs, finishedSpans_scanned]
      decide
  · intro h
    simp only [openingEvents, List.mem_cons, List.mem_singleton, List.not_mem_nil] at h
    rcases h with h | h | h | h | h | h | h
    · cases h
    · cases h
    · cases h
    · exact absurd (Event.finishSpan.inj h) (by decide)
    · cases h
    · cases h
    · exact h
  · intro err hquery
    rw [run_queryFailed env s err hskip hkind hprep hquery]
  · intro rows hquery
    obtain ⟨vs, hvs⟩ := run_trace env s rows hskip hkind hprep hquery
    refine ⟨rows.data.map Event.scan ++ Event.rowsErr :: vs.map (Event.setTag scanSpan "rows.err"),
      ?_, ?_⟩
    · simp
    · rw [hvs]
      simp

theorem C6_witness :
    (finishedSpans (queryCallback (fixedEnv [] (Except.ok twoRows))
        (scopeOf (Value.slice userTy []))).trace).count querySpan = 1 :=
  (C6_query_span_finish_deferred (fixedEnv [] (Except.ok twoRows))
    (scopeOf (Value.slice userTy [])) rfl (Or.inl rfl) rfl).1

theorem count_rowsClose_scan (rows : List (List Raw)) :
    (rows.map Event.scan).count Event.rowsClose = 0 := by
  induction rows with
  | nil => rfl
  | cons r rest ih =>
    rw [List.map_cons, List.count_cons_of_ne (by intro h; cases h)]
    exact ih

theorem count_rowsClose_tags (vs : List String) :
    (vs.map (Event.setTag scanSpan "rows.err")).count Event.rowsClose = 0 := by
  induction vs with
  | nil => rfl
  | cons r rest ih =>
    rw [List.map_cons, List.count_cons_of_ne (by intro h; cases h)]
    exact ih

theorem count_rowsClose_scanned (env : Env) (s : Scope) (rows : Rows) (vs : List String) :
    (openingEvents env s ++ [Event.startSpan scanSpan (Ctx.span querySpan)]
        ++ rows.data.map Event.scan
        ++ Event.rowsErr :: vs.map (Event.setTag scanSpan "rows.err")
        ++ [Event.finishSpan scanSpan, Event.rowsClose, Event.finishSpan querySpan,
          Event.finishSpan rootSpan, Event.scopeTrace]).count Event.rowsClose = 1 := by
  simp only [List.count_append, count_rowsClose_scan, List.count_cons, count_rowsClose_tags,
    openingEvents, List.count_nil]
  rfl

theorem count_rowsClose_before (env : Env) (s : Scope) (rows : Rows) (vs : List String) :
    (openingEvents env s ++ [Event.startSpan scanSpan (Ctx.span querySpan)]
        ++ rows.data.map Event.scan
        ++ Event.rowsErr :: vs.map (Event.setTag scanSpan "rows.err")
        ++ [Event.finishSpan scanSpan]).count Event.rowsClose = 0 := by
  simp only [List.count_append, count_rowsClose_scan, List.count_cons, count_rowsClose_tags,
    openingEvents, List.count_nil]
  rfl

/-- C7: on every path of `queryCallback` that is not skipped, the spans are
started once each and the spans finished are exactly the spans started, each
finished once: the number of starts is the number of finishes, and the root
span is the last one finished. -/
theorem C7_spans_finished_once (env : Env) (s : Scope) (hskip : skipped s = false) :
    (startedSpans (queryCallback env s).trace).Nodup
      ∧ (finishedSpans (queryCallback env s).trace).Perm (startedSpans (queryCallback env s).trace)
      ∧ (startedSpans (queryCallback env s).trace).length
        = (finishedSpans (queryCallback env s).trace).length
      ∧ (finishedSpans (queryCallback env s).trace).getLast? = some rootSpan := by
  rcases trace_cases env s with h | h | h | h | h
  · rw [hskip] at h
    exact absurd h.1 (by decide)
  · rw [h.2.2.2]
    change [rootSpan].Nodup ∧ [rootSpan].Perm [rootSpan] ∧ _ ∧ _
    exact ⟨by decide, by decide, rfl, rfl⟩
  · rw [h.2.2.2]
    change [rootSpan, prepareSpan].Nodup ∧ [prepareSpan, rootSpan].Perm [rootSpan, prepareSpan]
      ∧ _ ∧ _
    exact ⟨by decide, by decide, rfl, rfl⟩
  · obtain ⟨_, _, _, err, _, ht⟩ := h
    rw [ht, finishedSpans_failed, startedSpans_failed]
    exact ⟨by decide, by decide, rfl, rfl⟩
  · obtain ⟨_, _, _, rows, vs, _, ht⟩ := h
    rw [ht, finishedSpans_scanned, startedSpans_scanned]
    exact ⟨by decide, by decide, rfl, rfl⟩

theorem C7_witness :
    finishedSpans (queryCallback (fixedEnv [] (Except.ok brokenRows))
        (scopeOf (Value.slice userTy []))).trace
        = [prepareSpan, scanSpan, querySpan, rootSpan]
      ∧ (finishedSpans (queryCallback (fixedEnv [] (Except.ok brokenRows))
        (scopeOf (Value.slice userTy []))).trace).getLast? = some rootSpan :=
  ⟨by decide,
    (C7_spans_finished_once (fixedEnv [] (Except.ok brokenRows))
      (scopeOf (Value.slice userTy [])) rfl).2.2.2⟩

theorem cursor_close_cases (env : Env) (s : Scope) :
    (queryCallback env s).trace.count Event.rowsClose ≤ 1
      ∧ ((queryCallback env s).trace.count Event.rowsClose = 1 ↔
          ∃ sql vars rows, Event.query sql vars ∈ (queryCallback env s).trace
            ∧ env.query sql vars = Except.ok rows)
      ∧ (Event.rowsClose ∈ (queryCallback env s).trace →
          ∃ pre : List Event, Event.rowsErr ∈ pre ∧ Event.finishSpan scanSpan ∈ pre
            ∧ Event.rowsClose ∉ pre
            ∧ (queryCallback env s).trace
              = pre ++ [Event.rowsClose, Event.finishSpan querySpan,
                  Event.finishSpan rootSpan, Event.scopeTrace])
      ∧ (skipped s = true → Event.rowsClose ∉ (queryCallback env s).trace)
      ∧ (destKind s ≠ Kind.Slice → destKind s ≠ Kind.Struct →
          Event.rowsClose ∉ (queryCallback env s).trace)
      ∧ ((prepared env s).HasError = true → Event.rowsClose ∉ (queryCallback env s).trace)
      ∧ (∀ err, env.query (atQuery env s).SQL (atQuery env s).SQLVars = Except.error err →
          Event.rowsClose ∉ (queryCallback env s).trace) := by
  rcases trace_cases env s with h | h | h | h | h
  · obtain ⟨h1, ht⟩ := h
    rw [ht]
    simp
  · obtain ⟨h1, h2, h3, ht⟩ := h
    rw [ht]
    simp
  · obtain ⟨h1, h2, h3, ht⟩ := h
    rw [ht]
    simp
  · obtain ⟨h1, h2, h3, err, hq, ht⟩ := h
    rw [ht]
    refine ⟨by simp [openingEvents], ?_, by simp [openingEvents], by simp [openingEvents],
      by simp [openingEvents], by simp [openingEvents], by simp [openingEvents]⟩
    constructor
    · intro hc
      simp [openingEvents] at hc
    · rintro ⟨sql, vars, rows, hm, hok⟩
      simp only [openingEvents, List.cons_append, List.nil_append, List.mem_cons,
        List.mem_singleton, List.not_mem_nil, or_false] at hm
      rcases hm with hm | hm | hm | hm | hm | hm | hm | hm | hm <;> try cases hm
      rw [hq] at hok
      cases hok
  · obtain ⟨h1, h2, h3, rows, vs, hq, ht⟩ := h
    rw [ht]
    have hc := count_rowsClose_scanned env s rows vs
    have hb := count_rowsClose_before env s rows vs
    refine ⟨le_of_eq hc, ?_, ?_, ?_, ?_, ?_, ?_⟩
    · constructor
      · intro _
        exact ⟨(atQuery env s).SQL, (atQuery env s).SQLVars, rows, by simp [openingEvents], hq⟩
      · intro _
        exact hc
    · intro _
      refine ⟨openingEvents env s ++ [Event.startSpan scanSpan (Ctx.span querySpan)]
        ++ rows.data.map Event.scan
        ++ Event.rowsErr :: vs.map (Event.setTag scanSpan "rows.err")
        ++ [Event.finishSpan scanSpan], by simp, by simp, ?_, by simp⟩
      exact List.count_eq_zero.mp hb
    · intro hs
      rw [h1] at hs
      cases hs
    · intro k1 k2
      rcases h2 with h2 | h2
      · exact absurd h2 k1
      · exact absurd h2 k2
    · intro hp
      rw [h3] at hp
      cases hp
    · intro err he
      rw [hq] at he
      cases he

/-- C8: in every invocation in which `Query` is called and returns a cursor
(not skipped, supported destination, preparation without error), the cursor
is closed exactly once, after the rows are scanned, the end of the iteration
classified (`rows.Err`, the tag and the error it records) and the scan span
finished, and before the function returns: only the deferred finishes of the
query and root spans and the log follow it. In every invocation the cursor is
closed at most once, and exactly once if and only if `Query` was called and
returned without error; on the paths where no cursor was opened (skip,
unsupported destination, preparation failure, execution failure) `Close` is
not called. -/
theorem C8_cursor_closed_once (env : Env) (s : Scope) :
    (∀ rows : Rows, skipped s = false →
        (destKind s = Kind.Slice ∨ destKind s = Kind.Struct) →
        (prepared env s).HasError = false →
        env.query (atQuery env s).SQL (atQuery env s).SQLVars = Except.ok rows →
        Event.query (atQuery env s).SQL (atQuery env s).SQLVars ∈ (queryCallback env s).trace
          ∧ (queryCallback env s).trace.count Event.rowsClose = 1
          ∧ ∃ vs : List String, (queryCallback env s).trace
              = openingEvents env s ++ [Event.startSpan scanSpan (Ctx.span querySpan)]
                ++ rows.data.map Event.scan
                ++ Event.rowsErr :: vs.map (Event.setTag scanSpan "rows.err")
                ++ [Event.finishSpan scanSpan, Event.rowsClose, Event.finishSpan querySpan,
                  Event.finishSpan rootSpan, Event.scopeTrace])
      ∧ (queryCallback env s).trace.count Event.rowsClose ≤ 1
      ∧ ((queryCallback env s).trace.count Event.rowsClose = 1 ↔
          ∃ sql vars rows, Event.query sql vars ∈ (queryCallback env s).trace
            ∧ env.query sql vars = Except.ok rows)
      ∧ (Event.rowsClose ∈ (queryCallback env s).trace →
          ∃ pre : List Event, Event.rowsErr ∈ pre ∧ Event.finishSpan scanSpan ∈ pre
            ∧ Event.rowsClose ∉ pre
            ∧ (queryCallback env s).trace
              = pre ++ [Event.rowsClose, Event.finishSpan querySpan,
                  Event.finishSpan rootSpan, Event.scopeTrace])
      ∧ (skipped s = true → Event.rowsClose ∉ (queryCallback env s).trace)
      ∧ (destKind s ≠ Kind.Slice → destKind s ≠ Kind.Struct →
          Event.rowsClose ∉ (queryCallback env s).trace)
      ∧ ((prepared env s).HasError = true → Event.rowsClose ∉ (queryCallback env s).trace)
      ∧ (∀ err, env.query (atQuery env s).SQL (atQuery env s).SQLVars = Except.error err →
          Event.rowsClose ∉ (queryCallback env s).trace) := by
  refine ⟨?_, cursor_close_cases env s⟩
  intro rows hskip hkind hprep hquery
  obtain ⟨vs, hvs⟩ := run_trace env s rows hskip hkind hprep hquery
  refine ⟨?_, ?_, vs, hvs⟩
  · rw [hvs]
    simp [openingEvents]
  · rw [hvs]
    exact count_rowsClose_scanned env s rows vs

theorem C8_witness :
    (queryCallback (fixedEnv [] (Except.ok twoRows))
        (scopeOf (Value.slice userTy []))).trace.count Event.rowsClose = 1
      ∧ Event.query "SELECT * FROM users" [] ∈
          (queryCallback (fixedEnv [] (Except.ok twoRows))
            (scopeOf (Value.slice userTy []))).trace
      ∧ Event.rowsClose ∉
          (queryCallback (fixedEnv [] (Except.error (Error.other "no connection")))
            (scopeOf (Value.slice userTy []))).trace :=
  ⟨((C8_cursor_closed_once (fixedEnv [] (Except.ok twoRows))
      (scopeOf (Value.slice userTy []))).1 twoRows rfl (Or.inl rfl) rfl rfl).2.1,
    ((C8_cursor_closed_once (fixedEnv [] (Except.ok twoRows))
      (scopeOf (Value.slice userTy []))).1 twoRows rfl (Or.inl rfl) rfl rfl).1,
    (C8_cursor_closed_once (fixedEnv [] (Except.error (Error.other "no connection")))
      (scopeOf (Value.slice userTy []))).2.2.2.2.2.2.2 (Error.other "no connection") rfl⟩

/-- C9: when the scope carries the instance flag `gorm:skip_query_callback` or
`gorm:only_preload`, `queryCallback` returns the scope as it was (SQL text,
errors, rows-affected counter, order clauses, side channel and destination
included) and calls no collaborator: no span is started and no SQL is
issued. -/
theorem C9_skip_flags_no_effect (env : Env) (s : Scope)
    (hflag : (s.InstanceGet "gorm:skip_query_callback").isSome = true
      ∨ (s.InstanceGet "gorm:only_preload").isSome = true) :
    (queryCallback env s).scope = s
      ∧ (queryCallback env s).trace = []
      ∧ (queryCallback env s).scope.SQL = s.SQL
      ∧ (queryCallback env s).scope.errors = s.errors
      ∧ (queryCallback env s).scope.RowsAffected = s.RowsAffected
      ∧ (queryCallback env s).scope.orders = s.orders
      ∧ results (queryCallback env s).scope = results s
      ∧ queries (queryCallback env s).trace = []
      ∧ startedSpans (queryCallback env s).trace = [] := by
  have hs : skipped s = true := by
    simp only [skipped, Bool.or_eq_true]
    exact hflag
  rw [queryCallback_skipped env s hs]
  exact ⟨rfl, rfl, rfl, rfl, rfl, rfl, rfl, rfl, rfl⟩

theorem C9_witness :
    (queryCallback (fixedEnv [] (Except.ok twoRows)) skipScope).scope = skipScope
      ∧ (queryCallback (fixedEnv [] (Except.ok twoRows)) skipScope).trace = [] :=
  ⟨(C9_skip_flags_no_effect (fixedEnv [] (Except.ok twoRows)) skipScope (Or.inl rfl)).1,
    (C9_skip_flags_no_effect (fixedEnv [] (Except.ok twoRows)) skipScope (Or.inl rfl)).2.1⟩

/-- C10: when the preparation leaves no error on the scope, exactly one SQL
statement is passed to the query executor: its text is the `fmt.Sprint`
rendering of the `gorm:query_hint` value followed at once by the text
`prepareQuerySQL` produced, or that text unchanged when no hint is set, and
its bound parameters are the `SQLVars` of the scope after the preparation. -/
theorem C10_hint_put_in_front (env : Env) (s : Scope) (hskip : skipped s = false)
    (hkind : destKind s = Kind.Slice ∨ destKind s = Kind.Struct)
    (hprep : (prepared env s).HasError = false) :
    (∀ hint, s.Get "gorm:query_hint" = some hint →
        queries (queryCallback env s).trace
          = [(hint.sprint ++ (env.prepareQuerySQL (beforePrepare env s)).1,
              (prepared env s).SQLVars)])
      ∧ (s.Get "gorm:query_hint" = none →
        queries (queryCallback env s).trace
          = [((env.prepareQuerySQL (beforePrepare env s)).1, (prepared env s).SQLVars)])
      ∧ (prepared env s).SQLVars = (env.prepareQuerySQL (beforePrepare env s)).2.1 := by
  have hq := queries_of_run env s hskip hkind hprep
  rw [atQuery_SQL, (atQuery_fields env s).2.2.2.2] at hq
  refine ⟨?_, ?_, rfl⟩
  · intro hint hh
    rw [hq, hh]
  · intro hh
    rw [hq, hh]

theorem C10_witness :
    queries (queryCallback (fixedEnv [] (Except.ok twoRows)) hintScope).trace
      = [("/*+ hint */ SELECT * FROM users", [])] :=
  (C10_hint_put_in_front (fixedEnv [] (Except.ok twoRows)) hintScope rfl (Or.inl rfl) rfl).1
    (anyString "/*+ hint */ ") rfl

end Gorm
